import Mathlib

/-
Shallow embedding of the trial-balance core of `server.js`:
the report-row classifier, trial-balance builder and balance check
(`GET /api/trial-balance/:tenantId`, lines 1164-1398), the consolidation
engine (`GET /api/consolidated-trial-balance`, lines 1401-1633), the
connection listing (`tokenStorage.getAllXeroConnections`, lines 152-171)
and the period comparator (`GET /api/compare-periods/:tenantId`,
lines 2400-2542).

JavaScript numbers are modelled as `Option ℚ`: `some q` is a finite value
and `none` is `NaN` (produced by `parseFloat` on a non-numeric string).
The arithmetic and comparison operators below follow IEEE/JS semantics on
`NaN`: any arithmetic with `NaN` yields `NaN`, and every ordering or
equality comparison involving `NaN` is `false`.  Exact rationals stand in
for IEEE doubles; float rounding is not modelled.
-/

/-- A JavaScript number: `some q` is finite, `none` is `NaN`. -/
abbrev JNum := Option ℚ

/-- JS `+`. -/
def jadd : JNum → JNum → JNum
  | some x, some y => some (x + y)
  | _, _ => none

/-- JS `-`. -/
def jsub : JNum → JNum → JNum
  | some x, some y => some (x - y)
  | _, _ => none

/-- JS `Math.abs`. -/
def jabs : JNum → JNum
  | some x => some |x|
  | none => none

/-- JS `x >= 0` (false on `NaN`). -/
def jge0 : JNum → Bool
  | some x => decide (0 ≤ x)
  | none => false

/-- JS `x < 0` (false on `NaN`). -/
def jlt0 : JNum → Bool
  | some x => decide (x < 0)
  | none => false

/-- JS `x === 0` (false on `NaN`). -/
def jeq0 : JNum → Bool
  | some x => decide (x = 0)
  | none => false

/-- JS `x < y` (false when either side is `NaN`). -/
def jltB : JNum → JNum → Bool
  | some x, some y => decide (x < y)
  | _, _ => false

/-- JS `x > y` (false when either side is `NaN`). -/
def jgtB : JNum → JNum → Bool
  | some x, some y => decide (y < x)
  | _, _ => false

/-- `listPrefixOf p s` is true when `p` is an initial segment of `s`. -/
def listPrefixOf : List Char → List Char → Bool
  | [], _ => true
  | _ :: _, [] => false
  | a :: as, b :: bs => a == b && listPrefixOf as bs

/-- `listInfixOf p s` is true when `p` occurs contiguously inside `s`. -/
def listInfixOf (pat : List Char) : List Char → Bool
  | [] => listPrefixOf pat []
  | c :: cs => listPrefixOf pat (c :: cs) || listInfixOf pat cs

/-- JS `s.includes(pat)`. -/
def strIncludes (s pat : String) : Bool :=
  listInfixOf pat.toList s.toList

/-- Numeric value of an ASCII digit, `none` for any other character. -/
def charDigit (c : Char) : Option Nat :=
  if c.isDigit then some (c.toNat - 48) else none

/-- Splits a maximal run of leading digits off a character list. -/
def takeDigits : List Char → List Nat × List Char
  | [] => ([], [])
  | c :: cs =>
    match charDigit c with
    | some d =>
      let p := takeDigits cs
      (d :: p.1, p.2)
    | none => ([], c :: cs)

/-- Decimal value of a digit list. -/
def digitsToNat (ds : List Nat) : Nat :=
  ds.foldl (fun a d => a * 10 + d) 0

/-- Model of the JS builtin `parseFloat` on the fragment the reports use:
skip leading whitespace, optional sign, digits with an optional fraction,
trailing garbage ignored; `none` (`NaN`) when no digit is consumed.
(The exponent and `Infinity` forms of the builtin are not modelled.) -/
def jparseFloat (s : String) : JNum :=
  let cs := s.toList.dropWhile (fun c => c == ' ' || c == '\t' || c == '\n' || c == '\r')
  let sgn : ℚ × List Char :=
    match cs with
    | '-' :: t => (-1, t)
    | '+' :: t => (1, t)
    | t => (1, t)
  let ip := takeDigits sgn.2
  match ip.2 with
  | '.' :: cs3 =>
    let fp := takeDigits cs3
    if ip.1.isEmpty && fp.1.isEmpty then none
    else some (sgn.1 * ((digitsToNat ip.1 : ℚ) + (digitsToNat fp.1 : ℚ) / (10 : ℚ) ^ fp.1.length))
  | _ => if ip.1.isEmpty then none else some (sgn.1 * (digitsToNat ip.1 : ℚ))

/-- JS `parseFloat(cell?.value || 0)`: a missing or empty cell value is the
falsy `""`/`undefined`, so the default `0` is parsed; otherwise the string
itself is parsed (a missing cell value is modelled as `""`). -/
def cellAmount (v : String) : JNum :=
  if v = "" then some 0 else jparseFloat v

/-- One report cell; `value` is the display string (a JSON-absent value is
modelled as `""`, which the code treats identically through `|| 0` and
`|| ""`). -/
structure XCell where
  value : String
deriving DecidableEq

/-- One report row (`rowType`, `cells`); an absent `cells` array behaves
exactly like an empty one under the `row.cells && row.cells.length >= 2`
guard, so it is modelled as `[]`. -/
structure XRow where
  rowType : String
  cells : List XCell
deriving DecidableEq

/-- One report section; an absent `title` is modelled as `""` and an absent
`rows` array as `[]`, both of which the `section.rows && section.title`
guard rejects identically to the original falsy values. -/
structure XSection where
  rowType : String
  title : String
  rows : List XRow
deriving DecidableEq

/-- `accountInfo` of server.js lines 1239-1245 / 1307-1313. -/
structure AccountRecord where
  name : String
  balance : JNum
  debit : JNum
  credit : JNum
  sectionTitle : String
deriving DecidableEq

/-- `trialBalance.totals` of server.js lines 1201-1209. -/
structure Totals where
  totalDebits : JNum
  totalCredits : JNum
  totalAssets : JNum
  totalLiabilities : JNum
  totalEquity : JNum
  totalRevenue : JNum
  totalExpenses : JNum
deriving DecidableEq

/-- The `trialBalance` object of server.js lines 1195-1210: five account
lists plus running totals. -/
structure TrialBalanceLists where
  assets : List AccountRecord
  liabilities : List AccountRecord
  equity : List AccountRecord
  revenue : List AccountRecord
  expenses : List AccountRecord
  totals : Totals
deriving DecidableEq

/-- `balanceCheck.accountingEquation` of server.js lines 1355-1366. -/
structure AccountingEquation where
  assets : JNum
  liabilitiesAndEquity : JNum
  balanced : Bool
deriving DecidableEq

/-- `balanceCheck` of server.js lines 1348-1367. -/
structure BalanceCheck where
  debitsEqualCredits : Bool
  difference : JNum
  accountingEquation : AccountingEquation
deriving DecidableEq

/-- Zero-initialised totals (server.js lines 1201-1209). -/
def zeroTotals : Totals :=
  { totalDebits := some 0, totalCredits := some 0, totalAssets := some 0,
    totalLiabilities := some 0, totalEquity := some 0, totalRevenue := some 0,
    totalExpenses := some 0 }

/-- Fresh empty trial-balance state (server.js lines 1195-1210). -/
def initState : TrialBalanceLists :=
  { assets := [], liabilities := [], equity := [], revenue := [], expenses := [],
    totals := zeroTotals }

/-- Balance-sheet record with the debit-nature split
(server.js lines 1252-1254). -/
def assetRecord (title name : String) (v : JNum) : AccountRecord :=
  { name := name, balance := v,
    debit := if jge0 v then v else some 0,
    credit := if jlt0 v then jabs v else some 0,
    sectionTitle := title }

/-- Balance-sheet record with the credit-nature split
(server.js lines 1258-1260 and 1264-1266). -/
def creditRecord (title name : String) (v : JNum) : AccountRecord :=
  { name := name, balance := v,
    credit := if jge0 v then v else some 0,
    debit := if jlt0 v then jabs v else some 0,
    sectionTitle := title }

/-- P&L revenue record (server.js line 1319): credit is `Math.abs`. -/
def revenueRecord (title name : String) (v : JNum) : AccountRecord :=
  { name := name, balance := v, debit := some 0, credit := jabs v,
    sectionTitle := title }

/-- P&L expense record (server.js line 1326): debit is `Math.abs`. -/
def expenseRecord (title name : String) (v : JNum) : AccountRecord :=
  { name := name, balance := v, debit := jabs v, credit := some 0,
    sectionTitle := title }

/-- `accountInfo` as initialised before classification (debit and credit
stay 0 when no section keyword matches, server.js lines 1239-1245). -/
def plainRecord (title name : String) (v : JNum) : AccountRecord :=
  { name := name, balance := v, debit := some 0, credit := some 0,
    sectionTitle := title }

/-- The skip test of server.js lines 1227-1232 / 1299-1304: the row is
dropped when the account name contains "total" (case-insensitive) or the
parsed amount is `=== 0` (false for `NaN`). -/
def skipRow (name : String) (amt : JNum) : Bool :=
  strIncludes (String.toLower name) "total" || jeq0 amt

/-- The `totalDebits`/`totalCredits` accumulation that runs after either
classification branch (server.js lines 1271-1272 and 1331-1332). -/
def addDebitCredit (st : TrialBalanceLists) (acc : AccountRecord) : TrialBalanceLists :=
  { st with totals := { st.totals with
      totalDebits := jadd st.totals.totalDebits acc.debit,
      totalCredits := jadd st.totals.totalCredits acc.credit } }

/-- The balance-sheet classification chain of server.js lines 1248-1269:
bank/asset, then liabilit, then equity; an unmatched section title leaves
every list untouched. -/
def bsClassify (titleLower title name : String) (amt : JNum) (st : TrialBalanceLists) :
    TrialBalanceLists × AccountRecord :=
  if strIncludes titleLower "bank" || strIncludes titleLower "asset" then
    let acc := assetRecord title name amt
    ({ st with
        assets := st.assets ++ [acc],
        totals := { st.totals with totalAssets := jadd st.totals.totalAssets amt } }, acc)
  else if strIncludes titleLower "liabilit" then
    let acc := creditRecord title name amt
    ({ st with
        liabilities := st.liabilities ++ [acc],
        totals := { st.totals with totalLiabilities := jadd st.totals.totalLiabilities amt } }, acc)
  else if strIncludes titleLower "equity" then
    let acc := creditRecord title name amt
    ({ st with
        equity := st.equity ++ [acc],
        totals := { st.totals with totalEquity := jadd st.totals.totalEquity amt } }, acc)
  else (st, plainRecord title name amt)

/-- One balance-sheet row (server.js lines 1222-1273). -/
def bsProcessRow (titleLower title : String) (st : TrialBalanceLists) (row : XRow) :
    TrialBalanceLists :=
  if row.rowType == "Row" then
    match row.cells with
    | c0 :: c1 :: _ =>
      let name := c0.value
      let amt := cellAmount c1.value
      if skipRow name amt then st
      else
        let p := bsClassify titleLower title name amt st
        addDebitCredit p.1 p.2
    | _ => st
  else st

/-- One balance-sheet section (server.js lines 1215-1276): only sections
with `rowType === "Section"`, some rows and a truthy title are processed. -/
def bsProcessSection (st : TrialBalanceLists) (s : XSection) : TrialBalanceLists :=
  if s.rowType == "Section" && s.title != "" then
    s.rows.foldl (bsProcessRow (String.toLower s.title) s.title) st
  else st

/-- The whole balance-sheet pass (server.js lines 1215-1276). -/
def processBS (st : TrialBalanceLists) (secs : List XSection) : TrialBalanceLists :=
  secs.foldl bsProcessSection st

/-- The P&L classification chain of server.js lines 1315-1329:
income/revenue, then expense/cost; an unmatched title adds nothing. -/
def plClassify (titleLower title name : String) (amt : JNum) (st : TrialBalanceLists) :
    TrialBalanceLists × AccountRecord :=
  if strIncludes titleLower "income" || strIncludes titleLower "revenue" then
    let acc := revenueRecord title name amt
    ({ st with
        revenue := st.revenue ++ [acc],
        totals := { st.totals with totalRevenue := jadd st.totals.totalRevenue (jabs amt) } }, acc)
  else if strIncludes titleLower "expense" || strIncludes titleLower "cost" then
    let acc := expenseRecord title name amt
    ({ st with
        expenses := st.expenses ++ [acc],
        totals := { st.totals with totalExpenses := jadd st.totals.totalExpenses (jabs amt) } }, acc)
  else (st, plainRecord title name amt)

/-- One P&L row (server.js lines 1294-1333). -/
def plProcessRow (titleLower title : String) (st : TrialBalanceLists) (row : XRow) :
    TrialBalanceLists :=
  if row.rowType == "Row" then
    match row.cells with
    | c0 :: c1 :: _ =>
      let name := c0.value
      let amt := cellAmount c1.value
      if skipRow name amt then st
      else
        let p := plClassify titleLower title name amt st
        addDebitCredit p.1 p.2
    | _ => st
  else st

/-- One P&L section (server.js lines 1290-1336). -/
def plProcessSection (st : TrialBalanceLists) (s : XSection) : TrialBalanceLists :=
  if s.rowType == "Section" && s.title != "" then
    s.rows.foldl (plProcessRow (String.toLower s.title) s.title) st
  else st

/-- The whole P&L pass (server.js lines 1290-1336). -/
def processPL (st : TrialBalanceLists) (secs : List XSection) : TrialBalanceLists :=
  secs.foldl plProcessSection st

/-- The report-row classifier of the spec: the balance-sheet pass followed
by the P&L pass, before the account lists are sorted. -/
def classifyReports (bsSecs plSecs : List XSection) : TrialBalanceLists :=
  processPL (processBS initState bsSecs) plSecs

/-- Comparison-prop `a.name.localeCompare(b.name) <= 0`, modelled as
code-point order (server.js line 1344; locale-specific collation of the
JS builtin is not modelled). -/
def nameLe (a b : AccountRecord) : Prop :=
  a.name ≤ b.name

instance : DecidableRel nameLe :=
  fun a b => inferInstanceAs (Decidable (a.name ≤ b.name))

/-- The per-category alphabetical sort of server.js lines 1342-1346.
`Array.prototype.sort` is stable, and a stable sort is uniquely determined
by its comparator, so stable insertion sort is extensionally the code's
sort. -/
def sortLists (st : TrialBalanceLists) : TrialBalanceLists :=
  { st with
      assets := List.insertionSort nameLe st.assets,
      liabilities := List.insertionSort nameLe st.liabilities,
      equity := List.insertionSort nameLe st.equity,
      revenue := List.insertionSort nameLe st.revenue,
      expenses := List.insertionSort nameLe st.expenses }

/-- `balanceCheck` computation of server.js lines 1348-1367. -/
def mkBalanceCheck (t : Totals) : BalanceCheck :=
  { debitsEqualCredits := jltB (jabs (jsub t.totalDebits t.totalCredits)) (some (1 / 100)),
    difference := jsub t.totalDebits t.totalCredits,
    accountingEquation :=
      { assets := t.totalAssets,
        liabilitiesAndEquity := jadd t.totalLiabilities t.totalEquity,
        balanced :=
          jltB (jabs (jsub t.totalAssets (jadd t.totalLiabilities t.totalEquity)))
            (some (1 / 100)) } }

/-- The trial-balance payload of server.js lines 1380-1389 (the fields the
other endpoints consume; inert metadata such as `tenantId`, dates and the
`processedAccounts` counter is omitted). -/
structure TBResponse where
  trialBalance : TrialBalanceLists
  balanceCheck : BalanceCheck
deriving DecidableEq

/-- The successful trial-balance construction for already-fetched reports:
classify both reports, sort the lists, compute the balance check
(server.js lines 1194-1389). -/
def buildTB (bsSecs plSecs : List XSection) : TBResponse :=
  let sorted := sortLists (classifyReports bsSecs plSecs)
  { trialBalance := sorted, balanceCheck := mkBalanceCheck sorted.totals }

/-- `GET /api/trial-balance/:tenantId` as a function of the two report
fetch results (`none` = the fetch threw or returned no data).  A failed
balance-sheet fetch reaches the outer catch (lines 1390-1397) and yields
the 500 error response.  A failed P&L fetch enters the catch at line 1337,
whose handler calls `console.errorlog` — which is undefined — so a
`TypeError` escapes to the outer catch and the whole request also fails
with the 500 error response. -/
def buildTrialBalanceEx (bsFetch plFetch : Option (List XSection)) :
    Except String TBResponse :=
  match bsFetch with
  | none => Except.error "Failed to get trial balance"
  | some bsSecs =>
    match plFetch with
    | some plSecs => Except.ok (buildTB bsSecs plSecs)
    | none => Except.error "Failed to get trial balance"

/-- One stored token row (table `tokens`, provider `"xero"`). -/
structure TokenRow where
  tenantId : String
  tenantName : String
  expiresAt : Int
deriving DecidableEq

/-- One entry of `tokenStorage.getAllXeroConnections`
(server.js lines 159-166): `connected = Date.now() < expires_at`. -/
structure XConnection where
  tenantId : String
  tenantName : String
  connected : Bool
deriving DecidableEq

/-- `tokenStorage.getAllXeroConnections` (server.js lines 152-171). -/
def getAllXeroConnections (now : Int) (rows : List TokenRow) : List XConnection :=
  rows.map (fun r =>
    { tenantId := r.tenantId, tenantName := r.tenantName,
      connected := decide (now < r.expiresAt) })

/-- One account as re-projected into a company section
(server.js lines 1469-1529). -/
structure CompanyAccount where
  name : String
  debit : JNum
  credit : JNum
  balance : JNum
  sectionTitle : String
deriving DecidableEq

/-- One section grouping of `companyData.sections`
(server.js lines 1465-1531). -/
structure CompanySection where
  title : String
  total : JNum
  accounts : List CompanyAccount
deriving DecidableEq

/-- `companyData.sections` (server.js lines 1465-1531). -/
structure CompanySections where
  assets : CompanySection
  liabilities : CompanySection
  equity : CompanySection
  revenue : CompanySection
  expenses : CompanySection
deriving DecidableEq

/-- `companyData.accountCounts` (server.js lines 1532-1546). -/
structure AccountCounts where
  totalAccounts : Nat
  assetAccounts : Nat
  liabilityAccounts : Nat
  equityAccounts : Nat
  revenueAccounts : Nat
  expenseAccounts : Nat
deriving DecidableEq

/-- The per-account mapping of server.js lines 1469-1529, including the
`account.section || defaultTitle` fallback for a falsy section string. -/
def mapSectionAccounts (defTitle : String) (l : List AccountRecord) : List CompanyAccount :=
  l.map (fun a =>
    { name := a.name, debit := a.debit, credit := a.credit, balance := a.balance,
      sectionTitle := if a.sectionTitle = "" then defTitle else a.sectionTitle })

/-- `companyData` (server.js lines 1459-1547). -/
structure CompanyData where
  tenantId : String
  tenantName : String
  balanceCheck : BalanceCheck
  totals : Totals
  sections : CompanySections
  accountCounts : AccountCounts
deriving DecidableEq

/-- Builds `companyData` from a connection and its fetched trial balance
(server.js lines 1459-1547). -/
def mkCompanyData (conn : XConnection) (resp : TBResponse) : CompanyData :=
  let tb := resp.trialBalance
  { tenantId := conn.tenantId, tenantName := conn.tenantName,
    balanceCheck := resp.balanceCheck, totals := tb.totals,
    sections :=
      { assets := { title := "Assets", total := tb.totals.totalAssets,
                    accounts := mapSectionAccounts "Assets" tb.assets },
        liabilities := { title := "Liabilities", total := tb.totals.totalLiabilities,
                         accounts := mapSectionAccounts "Liabilities" tb.liabilities },
        equity := { title := "Equity", total := tb.totals.totalEquity,
                    accounts := mapSectionAccounts "Equity" tb.equity },
        revenue := { title := "Revenue", total := tb.totals.totalRevenue,
                     accounts := mapSectionAccounts "Revenue" tb.revenue },
        expenses := { title := "Expenses", total := tb.totals.totalExpenses,
                      accounts := mapSectionAccounts "Expenses" tb.expenses } },
    accountCounts :=
      { totalAccounts := tb.assets.length + tb.liabilities.length + tb.equity.length +
          tb.revenue.length + tb.expenses.length,
        assetAccounts := tb.assets.length,
        liabilityAccounts := tb.liabilities.length,
        equityAccounts := tb.equity.length,
        revenueAccounts := tb.revenue.length,
        expenseAccounts := tb.expenses.length } }

/-- Pointwise totals accumulation (server.js lines 1552-1561). -/
def addTotals (a b : Totals) : Totals :=
  { totalDebits := jadd a.totalDebits b.totalDebits,
    totalCredits := jadd a.totalCredits b.totalCredits,
    totalAssets := jadd a.totalAssets b.totalAssets,
    totalLiabilities := jadd a.totalLiabilities b.totalLiabilities,
    totalEquity := jadd a.totalEquity b.totalEquity,
    totalRevenue := jadd a.totalRevenue b.totalRevenue,
    totalExpenses := jadd a.totalExpenses b.totalExpenses }

/-- Accumulator of the per-entity loop (companies pushed in order, totals
summed; server.js lines 1443-1573). -/
structure ConsAccum where
  companies : List CompanyData
  totals : Totals
deriving DecidableEq

/-- One iteration of the per-entity loop (server.js lines 1443-1573): a
fetch that throws or is not `ok` leaves the accumulator untouched. -/
def consolidateStep (fetch : String → Option TBResponse) (st : ConsAccum)
    (conn : XConnection) : ConsAccum :=
  match fetch conn.tenantId with
  | some resp =>
    { companies := st.companies ++ [mkCompanyData conn resp],
      totals := addTotals st.totals resp.trialBalance.totals }
  | none => st

/-- `summary.dataQuality` (server.js lines 1600-1609). -/
structure DataQuality where
  allConnected : Bool
  allBalanced : Bool
  consolidatedBalanced : Bool
deriving DecidableEq

/-- `hierarchicalTrialBalance.summary` (server.js lines 1591-1610). -/
structure SummaryData where
  totalCompanies : Nat
  totalAccounts : Nat
  balancedCompanies : Nat
  dataQuality : DataQuality
deriving DecidableEq

/-- `hierarchicalTrialBalance.consolidated` (server.js lines 1417-1436). -/
structure ConsolidatedBlock where
  totals : Totals
  balanceCheck : BalanceCheck
deriving DecidableEq

/-- The consolidated response (server.js lines 1416-1623, inert metadata
omitted). -/
structure ConsolidatedView where
  consolidated : ConsolidatedBlock
  companies : List CompanyData
  summary : SummaryData
deriving DecidableEq

/-- `GET /api/consolidated-trial-balance` as a function of the stored
connections and the per-entity trial-balance fetch
(server.js lines 1401-1633). -/
def buildConsolidated (conns : List XConnection) (fetch : String → Option TBResponse) :
    ConsolidatedView :=
  let connectedEntities := conns.filter (fun c => c.connected)
  let st := connectedEntities.foldl (consolidateStep fetch)
    { companies := [], totals := zeroTotals }
  let bc := mkBalanceCheck st.totals
  { consolidated := { totals := st.totals, balanceCheck := bc },
    companies := st.companies,
    summary :=
      { totalCompanies := st.companies.length,
        totalAccounts := st.companies.foldl (fun s c => s + c.accountCounts.totalAccounts) 0,
        balancedCompanies :=
          (st.companies.filter (fun c => c.balanceCheck.debitsEqualCredits)).length,
        dataQuality :=
          { allConnected := st.companies.length == connectedEntities.length,
            allBalanced := st.companies.all (fun c => c.balanceCheck.debitsEqualCredits),
            consolidatedBalanced := bc.debitsEqualCredits } } }

/-- The consolidated endpoint from the raw token rows: list the stored
connections, filter to the unexpired ones, then consolidate
(server.js lines 1409-1414). -/
def buildConsolidatedFromRows (now : Int) (rows : List TokenRow)
    (fetch : String → Option TBResponse) : ConsolidatedView :=
  buildConsolidated (getAllXeroConnections now rows) fetch

/-- `comparison.fromPeriod` / `comparison.toPeriod`
(server.js lines 2448-2463). -/
structure PeriodSummary where
  totalAssets : JNum
  totalLiabilities : JNum
  totalEquity : JNum
  totalDebits : JNum
  totalCredits : JNum
  balanced : Bool
deriving DecidableEq

/-- `comparison.changes` (server.js lines 2464-2477). -/
structure ChangesBlock where
  assetsChange : JNum
  liabilitiesChange : JNum
  equityChange : JNum
  balanceStatusChange : Bool
deriving DecidableEq

/-- One entry of `accountChanges` (server.js lines 2501-2507, 2516-2522). -/
structure AccountChange where
  accountName : String
  fromBalance : JNum
  toBalance : JNum
  change : JNum
  changeType : String
deriving DecidableEq

/-- The comparison payload (server.js lines 2443-2532, inert metadata
omitted). -/
structure ComparisonResult where
  fromPeriod : PeriodSummary
  toPeriod : PeriodSummary
  changes : ChangesBlock
  accountChanges : List AccountChange
  significantChanges : List AccountChange
deriving DecidableEq

/-- Period summary projection (server.js lines 2448-2463). -/
def mkPeriodSummary (d : TBResponse) : PeriodSummary :=
  { totalAssets := d.trialBalance.totals.totalAssets,
    totalLiabilities := d.trialBalance.totals.totalLiabilities,
    totalEquity := d.trialBalance.totals.totalEquity,
    totalDebits := d.trialBalance.totals.totalDebits,
    totalCredits := d.trialBalance.totals.totalCredits,
    balanced := d.balanceCheck.debitsEqualCredits }

/-- JS `list.find(a => a.name === n)`. -/
def findByName (l : List AccountRecord) (n : String) : Option AccountRecord :=
  l.find? (fun a => a.name == n)

/-- The matched-account entry of server.js lines 2495-2510: accounts
present in both periods enter `accountChanges` when `|change| > 1000`. -/
def matchedEntry (toAccs : List AccountRecord) (fa : AccountRecord) :
    Option AccountChange :=
  match findByName toAccs fa.name with
  | some ta =>
    let change := jsub ta.balance fa.balance
    if jgtB (jabs change) (some 1000) then
      some { accountName := fa.name, fromBalance := fa.balance, toBalance := ta.balance,
             change := change,
             changeType := if jgtB change (some 0) then "INCREASE" else "DECREASE" }
    else none
  | none => none

/-- The new-account entry of server.js lines 2513-2524: accounts present
only in the "to" period enter `accountChanges` when `|balance| > 1000`. -/
def newEntry (fromAccs : List AccountRecord) (ta : AccountRecord) :
    Option AccountChange :=
  match findByName fromAccs ta.name with
  | some _ => none
  | none =>
    if jgtB (jabs ta.balance) (some 1000) then
      some { accountName := ta.name, fromBalance := some 0, toBalance := ta.balance,
             change := ta.balance, changeType := "NEW_ACCOUNT" }
    else none

/-- Sort key `Math.abs(change)` of the comparator at server.js line 2527;
an entry with `NaN` change is keyed 0 (`Array.sort` on a `NaN` comparator
value has no specified order, and no such entry passes the `> 1000`
filter, so none occurs in `accountChanges`). -/
def qAbsKey : JNum → ℚ
  | some q => |q|
  | none => 0

/-- Descending-magnitude comparison of the sort at server.js line 2527. -/
def absGe (a b : AccountChange) : Prop :=
  qAbsKey b.change ≤ qAbsKey a.change

instance : DecidableRel absGe :=
  fun a b => inferInstanceAs (Decidable (qAbsKey b.change ≤ qAbsKey a.change))

instance : IsTotal AccountChange absGe :=
  ⟨fun a b => le_total (qAbsKey b.change) (qAbsKey a.change)⟩

instance : IsTrans AccountChange absGe :=
  ⟨fun _ _ _ h1 h2 => le_trans h2 h1⟩

/-- The asset+liability+equity concatenation of server.js
lines 2481-2490 (revenue/expense excluded from the account diff). -/
def bsAccountsOf (tb : TrialBalanceLists) : List AccountRecord :=
  tb.assets ++ tb.liabilities ++ tb.equity

/-- `GET /api/compare-periods/:tenantId` as a function of the two fetched
trial balances and the (unused) `accountFilter` query parameter
(server.js lines 2400-2542); the sort at line 2527 is the stable
`Array.prototype.sort` under the descending-magnitude comparator. -/
def comparePeriods (fromD toD : TBResponse) (accountFilter : Option String) :
    ComparisonResult :=
  let fromAccs := bsAccountsOf fromD.trialBalance
  let toAccs := bsAccountsOf toD.trialBalance
  let accountChanges := List.insertionSort absGe
    (fromAccs.filterMap (matchedEntry toAccs) ++ toAccs.filterMap (newEntry fromAccs))
  { fromPeriod := mkPeriodSummary fromD,
    toPeriod := mkPeriodSummary toD,
    changes :=
      { assetsChange := jsub toD.trialBalance.totals.totalAssets
          fromD.trialBalance.totals.totalAssets,
        liabilitiesChange := jsub toD.trialBalance.totals.totalLiabilities
          fromD.trialBalance.totals.totalLiabilities,
        equityChange := jsub toD.trialBalance.totals.totalEquity
          fromD.trialBalance.totals.totalEquity,
        balanceStatusChange := toD.balanceCheck.debitsEqualCredits !=
          fromD.balanceCheck.debitsEqualCredits },
    accountChanges := accountChanges,
    significantChanges :=
      accountChanges.filter (fun c => jgtB (jabs c.change) (some 100000)) }

/-- Pointwise list sum in JS arithmetic, starting from the 0 initialiser. -/
def jsum (l : List JNum) : JNum :=
  l.foldl jadd (some 0)

/-- Total record count across the five classified lists. -/
def recCount (st : TrialBalanceLists) : Nat :=
  st.assets.length + st.liabilities.length + st.equity.length +
    st.revenue.length + st.expenses.length

/-- All classified records, in list order across the five categories. -/
def allRecs (st : TrialBalanceLists) : List AccountRecord :=
  st.assets ++ st.liabilities ++ st.equity ++ st.revenue ++ st.expenses

/-- Data row in the sense of the guard at server.js lines 1223 / 1295:
`rowType === "Row"` and at least two cells. -/
def isDataRow (row : XRow) : Bool :=
  row.rowType == "Row" && decide (2 ≤ row.cells.length)

/-- The account-name cell of a row (`cells[0]?.value || ""`). -/
def rowName (row : XRow) : String :=
  match row.cells with
  | c :: _ => c.value
  | [] => ""

/-- The parsed amount cell of a row (`parseFloat(cells[1]?.value || 0)`). -/
def rowAmount (row : XRow) : JNum :=
  match row.cells with
  | _ :: c :: _ => cellAmount c.value
  | _ => some 0

/-- A row that survives the skip test with a genuinely numeric amount:
name free of "total" (case-insensitive) and amount parsed to a nonzero
number. -/
def rowConformsB (row : XRow) : Bool :=
  !strIncludes (String.toLower (rowName row)) "total" &&
    !jeq0 (rowAmount row) && (rowAmount row).isSome

/-- The balance-sheet category keywords (server.js lines 1248-1263). -/
def matchesBS (tl : String) : Bool :=
  strIncludes tl "bank" || strIncludes tl "asset" ||
    strIncludes tl "liabilit" || strIncludes tl "equity"

/-- The P&L category keywords (server.js lines 1315-1324). -/
def matchesPL (tl : String) : Bool :=
  strIncludes tl "income" || strIncludes tl "revenue" ||
    strIncludes tl "expense" || strIncludes tl "cost"

/-- Membership in any of the five category keyword sets of the spec. -/
def matchesAnyCategory (tl : String) : Bool :=
  matchesBS tl || matchesPL tl

/-- Which of the two report shapes a section list is processed as. -/
inductive ReportKind
  | balanceSheet
  | profitAndLoss
deriving DecidableEq

/-- The classifier pass applied to one report of the given shape. -/
def classifyReport : ReportKind → List XSection → TrialBalanceLists
  | ReportKind.balanceSheet, secs => processBS initState secs
  | ReportKind.profitAndLoss, secs => processPL initState secs

/-- A well-formed section whose title matches one of the five category
keyword sets (the hypothesis of the classification-completeness claim). -/
def sectionFiveOk (s : XSection) : Bool :=
  s.rowType == "Section" && s.title != "" && matchesAnyCategory (String.toLower s.title)

/-- A well-formed section whose title matches a category handled by the
pass that actually processes the given report shape. -/
def sectionKindOk (k : ReportKind) (s : XSection) : Bool :=
  s.rowType == "Section" && s.title != "" &&
    (match k with
     | ReportKind.balanceSheet => matchesBS (String.toLower s.title)
     | ReportKind.profitAndLoss => matchesPL (String.toLower s.title))

/-- Number of data rows across a section list. -/
def dataRowCount (secs : List XSection) : Nat :=
  (secs.map (fun s => s.rows.countP isDataRow)).sum

/-- Nonnegative debit, nonnegative credit, at most one of them nonzero,
with the stated concrete values. -/
def dcLaw (r : AccountRecord) (db cr : ℚ) : Prop :=
  r.debit = some db ∧ r.credit = some cr ∧ 0 ≤ db ∧ 0 ≤ cr ∧ (db = 0 ∨ cr = 0)

/-- Debit-nature split for records with a parsed balance:
`debit = max(balance, 0)`, `credit = max(-balance, 0)`,
so `debit - credit = balance`. -/
def assetLaw (r : AccountRecord) : Prop :=
  ∀ b : ℚ, r.balance = some b →
    dcLaw r (max b 0) (max (-b) 0) ∧ max b 0 - max (-b) 0 = b

/-- Credit-nature split (liability/equity) for records with a parsed
balance: `credit = max(balance, 0)`, `debit = max(-balance, 0)`,
so `credit - debit = balance`. -/
def creditLaw (r : AccountRecord) : Prop :=
  ∀ b : ℚ, r.balance = some b →
    dcLaw r (max (-b) 0) (max b 0) ∧ max b 0 - max (-b) 0 = b

/-- Revenue split for records with a parsed balance: `credit = |balance|`,
`debit = 0`, so `credit - debit = |balance|`. -/
def revenueLaw (r : AccountRecord) : Prop :=
  ∀ b : ℚ, r.balance = some b → dcLaw r 0 |b|

/-- Expense split for records with a parsed balance: `debit = |balance|`,
`credit = 0`, so `debit - credit = |balance|`. -/
def expenseLaw (r : AccountRecord) : Prop :=
  ∀ b : ℚ, r.balance = some b → dcLaw r |b| 0

/-- The classifier invariant: every record in every list satisfies its
category's debit/credit law. -/
def lawfulLists (st : TrialBalanceLists) : Prop :=
  (∀ r ∈ st.assets, assetLaw r) ∧ (∀ r ∈ st.liabilities, creditLaw r) ∧
    (∀ r ∈ st.equity, creditLaw r) ∧ (∀ r ∈ st.revenue, revenueLaw r) ∧
    (∀ r ∈ st.expenses, expenseLaw r)

/-- Every record of the state stems from a data row of one of the given
sections, with the row's name and parsed amount preserved. -/
def originated (secs : List XSection) (st : TrialBalanceLists) : Prop :=
  ∀ r ∈ allRecs st, ∃ s ∈ secs, ∃ row ∈ s.rows,
    isDataRow row = true ∧ r.name = rowName row ∧ r.balance = rowAmount row

/-- A two-cell report row with the given name and amount strings. -/
def mkRow (name amt : String) : XRow :=
  { rowType := "Row", cells := [{ value := name }, { value := amt }] }

/-- A report section with the given title and rows. -/
def mkSec (title : String) (rows : List XRow) : XSection :=
  { rowType := "Section", title := title, rows := rows }

/-- Sample balance sheet: one bank, one liability, one equity account. -/
def exBS : List XSection :=
  [mkSec "Bank Accounts" [mkRow "Cash" "100"],
   mkSec "Current Liabilities" [mkRow "Loan" "40"],
   mkSec "Equity" [mkRow "Capital" "60"]]

/-- Sample P&L: one income and one expense account. -/
def exPL : List XSection :=
  [mkSec "Income" [mkRow "Sales" "10"],
   mkSec "Operating Expenses" [mkRow "Rent" "10"]]

/-- A revenue section holding a contra-revenue row and a row whose amount
string does not parse. -/
def exRevSec : XSection :=
  mkSec "Sales Revenue" [mkRow "Refunds" "-50", mkRow "Weird" "abc"]

/-- An income-titled section, fed to the balance-sheet pass. -/
def exIncomeSec : XSection :=
  mkSec "Income" [mkRow "Sales" "1500"]

/-- An asset section whose single row has a non-numeric amount string. -/
def exAssetNaNSec : XSection :=
  mkSec "Other Assets" [mkRow "Mystery" "abc"]

/-- An account record with the given name, balance and section (the
debit/credit split is irrelevant to the period comparator). -/
def exRec (name : String) (b : ℚ) (sec : String) : AccountRecord :=
  { name := name, balance := some b, debit := some b, credit := some 0,
    sectionTitle := sec }

/-- Sample "from"-period trial balance for the comparator. -/
def exFromTB : TBResponse :=
  { trialBalance :=
      { assets := [exRec "Cash" 5000 "Bank"], liabilities := [], equity := [],
        revenue := [], expenses := [], totals := zeroTotals },
    balanceCheck := mkBalanceCheck zeroTotals }

/-- Sample "to"-period trial balance for the comparator: `Cash` grew by
2000 and `New Truck` appeared with balance 150000. -/
def exToTB : TBResponse :=
  { trialBalance :=
      { assets := [exRec "Cash" 7000 "Bank", exRec "New Truck" 150000 "Fixed Assets"],
        liabilities := [], equity := [], revenue := [], expenses := [],
        totals := zeroTotals },
    balanceCheck := mkBalanceCheck zeroTotals }

/-- An empty but well-formed entity trial balance. -/
def exTB : TBResponse :=
  buildTB [] []

/-- Three connected sample entities. -/
def exConn1 : XConnection := { tenantId := "t1", tenantName := "Alpha", connected := true }

/-- See `exConn1`. -/
def exConn2 : XConnection := { tenantId := "t2", tenantName := "Beta", connected := true }

/-- See `exConn1`. -/
def exConn3 : XConnection := { tenantId := "t3", tenantName := "Gamma", connected := true }

/-- A fetch for which exactly the middle of the three sample entities
fails. -/
def exFetch : String → Option TBResponse :=
  fun tid => if tid = "t2" then none else
    if tid = "t1" then some exTB else
      if tid = "t3" then some exTB else none

/-- A stored token row that is still valid at time 100. -/
def exRowLive : TokenRow := { tenantId := "t1", tenantName := "Alpha", expiresAt := 200 }

/-- A stored token row whose token expired before time 100. -/
def exRowExpired : TokenRow := { tenantId := "t9", tenantName := "Omega", expiresAt := 50 }

/-- A fetch that succeeds only for the live sample entity. -/
def exFetchLive : String → Option TBResponse :=
  fun tid => if tid = "t1" then some exTB else none

theorem mkBalanceCheck_spec (t : Totals) :
    (∀ d c : ℚ, t.totalDebits = some d → t.totalCredits = some c →
      ((mkBalanceCheck t).debitsEqualCredits = true ↔ |d - c| < 1 / 100)) ∧
    (mkBalanceCheck t).difference = jsub t.totalDebits t.totalCredits ∧
    (mkBalanceCheck t).accountingEquation.assets = t.totalAssets ∧
    (mkBalanceCheck t).accountingEquation.liabilitiesAndEquity =
      jadd t.totalLiabilities t.totalEquity ∧
    (∀ a l e : ℚ, t.totalAssets = some a → t.totalLiabilities = some l →
      t.totalEquity = some e →
      ((mkBalanceCheck t).accountingEquation.balanced = true ↔ |a - (l + e)| < 1 / 100)) := by
  refine ⟨?_, rfl, rfl, rfl, ?_⟩
  · intro d c hd hc
    simp [mkBalanceCheck, hd, hc, jsub, jabs, jltB]
  · intro a l e ha hl he
    simp [mkBalanceCheck, ha, hl, he, jadd, jsub, jabs, jltB]

/-- C1: every trial balance returned by the trial-balance endpoint has a
balance check whose `debitsEqualCredits` holds exactly when the debit and
credit totals differ by less than 0.01, whose `difference` equals
`totalDebits - totalCredits`, and whose accounting equation copies the
asset and liability+equity totals and flags `balanced` exactly when they
differ by less than 0.01.  The quantitative clauses are stated for totals
that are actual numbers (not the JS `NaN`). -/
theorem c1_balance_check_invariant (bsFetch plFetch : Option (List XSection))
    (resp : TBResponse) (h : buildTrialBalanceEx bsFetch plFetch = Except.ok resp) :
    (∀ d c : ℚ, resp.trialBalance.totals.totalDebits = some d →
      resp.trialBalance.totals.totalCredits = some c →
      (resp.balanceCheck.debitsEqualCredits = true ↔ |d - c| < 1 / 100)) ∧
    resp.balanceCheck.difference =
      jsub resp.trialBalance.totals.totalDebits resp.trialBalance.totals.totalCredits ∧
    resp.balanceCheck.accountingEquation.assets = resp.trialBalance.totals.totalAssets ∧
    resp.balanceCheck.accountingEquation.liabilitiesAndEquity =
      jadd resp.trialBalance.totals.totalLiabilities resp.trialBalance.totals.totalEquity ∧
    (∀ a l e : ℚ, resp.trialBalance.totals.totalAssets = some a →
      resp.trialBalance.totals.totalLiabilities = some l →
      resp.trialBalance.totals.totalEquity = some e →
      (resp.balanceCheck.accountingEquation.balanced = true ↔ |a - (l + e)| < 1 / 100)) := by
  cases bsFetch with
  | none => simp [buildTrialBalanceEx] at h
  | some bsSecs =>
    cases plFetch with
    | none => simp [buildTrialBalanceEx] at h
    | some plSecs =>
      simp only [buildTrialBalanceEx, Except.ok.injEq] at h
      subst h
      exact mkBalanceCheck_spec _

/-- C1 witness: on the sample reports (debits = credits = 110) the
invariant instantiates to an actual biconditional. -/
theorem c1_balance_check_invariant_witness :
    (buildTB exBS exPL).balanceCheck.debitsEqualCredits = true ↔
      |(110 : ℚ) - 110| < 1 / 100 :=
  (c1_balance_check_invariant (some exBS) (some exPL) (buildTB exBS exPL) rfl).1
    110 110 (by with_unfolding_all decide) (by with_unfolding_all decide)

/-- C7 (code bug evidence): when the P&L fetch fails while the balance
sheet succeeded, the endpoint does NOT return a partial trial balance —
the catch handler at server.js line 1338 calls `console.errorlog`, which
is undefined, so a `TypeError` escapes to the outer catch and the whole
request fails with the 500 "Failed to get trial balance" response. -/
theorem c7_pl_failure_fails_whole_operation (bsSecs : List XSection) :
    buildTrialBalanceEx (some bsSecs) none =
      Except.error "Failed to get trial balance" :=
  rfl

/-- C9: the returned period comparison is identical for any two values of
the `accountFilter` parameter — the parameter is read
(server.js line 2411) but never used. -/
theorem c9_account_filter_independent (fromD toD : TBResponse)
    (f1 f2 : Option String) :
    comparePeriods fromD toD f1 = comparePeriods fromD toD f2 :=
  rfl

/-- C2 counterexample: a revenue section with a contra-revenue row
(amount "-50") and a row with non-numeric amount "abc" produces records
for which the claimed laws fail: `Refunds` has credit 50 and debit 0, so
`credit - debit = 50 ≠ -50 = balance`; `Weird` has credit `NaN`, so
`credit >= 0` is false. -/
theorem c2_counterexample :
    (processPL initState [exRevSec]).revenue.map
        (fun r => (r.name, r.balance, r.debit, r.credit)) =
      [("Refunds", some (-50 : ℚ), some 0, some 50), ("Weird", none, some 0, none)] ∧
    ((processPL initState [exRevSec]).revenue.all
      (fun r => jsub r.credit r.debit == r.balance && jge0 r.credit)) = false := by
  with_unfolding_all decide

/-- C3 counterexample: a well-formed section titled "Income" matches one
of the five category keyword sets and holds one conforming data row with
amount 1500, yet the balance-sheet pass (which only handles
bank/asset/liabilit/equity titles) produces zero records instead of
one. -/
theorem c3_counterexample :
    sectionFiveOk exIncomeSec = true ∧
    ([exIncomeSec].all (fun s => s.rows.all
      (fun row => isDataRow row && rowConformsB row))) = true ∧
    dataRowCount [exIncomeSec] = 1 ∧
    recCount (classifyReport ReportKind.balanceSheet [exIncomeSec]) = 0 := by
  with_unfolding_all decide

/-- C8 counterexample: a row whose amount string "abc" does not parse is
NOT treated as 0 and skipped — `parseFloat` yields `NaN`, `NaN === 0` is
false, so the row produces an `AccountRecord` with `NaN` balance and the
asset total becomes `NaN` (changed from its previous value 0). -/
theorem c8_counterexample :
    jparseFloat "abc" = none ∧
    (processBS initState [exAssetNaNSec]).assets.map
        (fun r => (r.name, r.balance, r.debit, r.credit)) =
      [("Mystery", none, some 0, some 0)] ∧
    (processBS initState [exAssetNaNSec]).totals.totalAssets = none ∧
    initState.totals.totalAssets = some 0 := by
  with_unfolding_all decide

theorem assetRecord_law (t n : String) (v : JNum) : assetLaw (assetRecord t n v) := by
  intro b hb
  have hv : v = some b := hb
  subst hv
  rcases le_or_lt 0 b with h | h
  · have h1 : jge0 (some b) = true := by simp [jge0, h]
    have h2 : jlt0 (some b) = false := by simp [jlt0, not_lt.2 h]
    refine ⟨⟨?_, ?_, le_max_right b 0, le_max_right (-b) 0, Or.inr ?_⟩, ?_⟩
    · simp [assetRecord, h1, max_eq_left h]
    · simp [assetRecord, h2, max_eq_right (neg_nonpos.mpr h)]
    · exact max_eq_right (neg_nonpos.mpr h)
    · rw [max_eq_left h, max_eq_right (neg_nonpos.mpr h)]; ring
  · have h1 : jge0 (some b) = false := by simp [jge0, not_le.mpr h]
    have h2 : jlt0 (some b) = true := by simp [jlt0, h]
    have hmax : max b 0 = 0 := max_eq_right h.le
    have hmax2 : max (-b) 0 = -b := max_eq_left (neg_nonneg.mpr h.le)
    refine ⟨⟨?_, ?_, le_max_right b 0, le_max_right (-b) 0, Or.inl hmax⟩, ?_⟩
    · simp [assetRecord, h1, hmax]
    · simp [assetRecord, h2, jabs, hmax2, abs_of_neg h]
    · rw [hmax, hmax2]; ring

theorem creditRecord_law (t n : String) (v : JNum) : creditLaw (creditRecord t n v) := by
  intro b hb
  have hv : v = some b := hb
  subst hv
  rcases le_or_lt 0 b with h | h
  · have h1 : jge0 (some b) = true := by simp [jge0, h]
    have h2 : jlt0 (some b) = false := by simp [jlt0, not_lt.2 h]
    refine ⟨⟨?_, ?_, le_max_right (-b) 0, le_max_right b 0, Or.inl ?_⟩, ?_⟩
    · simp [creditRecord, h2, max_eq_right (neg_nonpos.mpr h)]
    · simp [creditRecord, h1, max_eq_left h]
    · exact max_eq_right (neg_nonpos.mpr h)
    · rw [max_eq_left h, max_eq_right (neg_nonpos.mpr h)]; ring
  · have h1 : jge0 (some b) = false := by simp [jge0, not_le.mpr h]
    have h2 : jlt0 (some b) = true := by simp [jlt0, h]
    have hmax : max b 0 = 0 := max_eq_right h.le
    have hmax2 : max (-b) 0 = -b := max_eq_left (neg_nonneg.mpr h.le)
    refine ⟨⟨?_, ?_, le_max_right (-b) 0, le_max_right b 0, Or.inr hmax⟩, ?_⟩
    · simp [creditRecord, h2, jabs, hmax2, abs_of_neg h]
    · simp [creditRecord, h1, hmax]
    · rw [hmax, hmax2]; ring

theorem revenueRecord_law (t n : String) (v : JNum) : revenueLaw (revenueRecord t n v) := by
  intro b hb
  have hv : v = some b := hb
  subst hv
  exact ⟨rfl, by simp [revenueRecord, jabs], le_refl 0, abs_nonneg b, Or.inl rfl⟩

theorem expenseRecord_law (t n : String) (v : JNum) : expenseLaw (expenseRecord t n v) := by
  intro b hb
  have hv : v = some b := hb
  subst hv
  exact ⟨by simp [expenseRecord, jabs], rfl, abs_nonneg b, le_refl 0, Or.inr rfl⟩

theorem lawful_bsClassify (tl t n : String) (v : JNum) (st : TrialBalanceLists)
    (h : lawfulLists st) : lawfulLists (bsClassify tl t n v st).1 := by
  obtain ⟨ha, hl, he, hr, hx⟩ := h
  unfold bsClassify
  split_ifs with h1 h2 h3
  · refine ⟨?_, hl, he, hr, hx⟩
    intro r hm
    rcases List.mem_append.1 hm with hm | hm
    · exact ha r hm
    · rw [List.mem_singleton.1 hm]
      exact assetRecord_law tl n v
  · refine ⟨ha, ?_, he, hr, hx⟩
    intro r hm
    rcases List.mem_append.1 hm with hm | hm
    · exact hl r hm
    · rw [List.mem_singleton.1 hm]
      exact creditRecord_law tl n v
  · refine ⟨ha, hl, ?_, hr, hx⟩
    intro r hm
    rcases List.mem_append.1 hm with hm | hm
    · exact he r hm
    · rw [List.mem_singleton.1 hm]
      exact creditRecord_law tl n v
  · exact ⟨ha, hl, he, hr, hx⟩

theorem lawful_plClassify (tl t n : String) (v : JNum) (st : TrialBalanceLists)
    (h : lawfulLists st) : lawfulLists (plClassify tl t n v st).1 := by
  obtain ⟨ha, hl, he, hr, hx⟩ := h
  unfold plClassify
  split_ifs with h1 h2
  · refine ⟨ha, hl, he, ?_, hx⟩
    intro r hm
    rcases List.mem_append.1 hm with hm | hm
    · exact hr r hm
    · rw [List.mem_singleton.1 hm]
      exact revenueRecord_law tl n v
  · refine ⟨ha, hl, he, hr, ?_⟩
    intro r hm
    rcases List.mem_append.1 hm with hm | hm
    · exact hx r hm
    · rw [List.mem_singleton.1 hm]
      exact expenseRecord_law tl n v
  · exact ⟨ha, hl, he, hr, hx⟩

theorem lawful_bsProcessRow (tl t : String) (st : TrialBalanceLists) (row : XRow)
    (h : lawfulLists st) : lawfulLists (bsProcessRow tl t st row) := by
  unfold bsProcessRow
  split
  · split
    · dsimp only
      split
      · exact h
      · exact lawful_bsClassify tl t _ _ st h
    · exact h
  · exact h

theorem lawful_plProcessRow (tl t : String) (st : TrialBalanceLists) (row : XRow)
    (h : lawfulLists st) : lawfulLists (plProcessRow tl t st row) := by
  unfold plProcessRow
  split
  · split
    · dsimp only
      split
      · exact h
      · exact lawful_plClassify tl t _ _ st h
    · exact h
  · exact h

theorem lawful_foldl {α : Type} (f : TrialBalanceLists → α → TrialBalanceLists)
    (hf : ∀ st a, lawfulLists st → lawfulLists (f st a)) (l : List α) :
    ∀ st, lawfulLists st → lawfulLists (List.foldl f st l) := by
  induction l with
  | nil => intro st h; exact h
  | cons a l ih => intro st h; exact ih (f st a) (hf st a h)

theorem lawful_processBS (secs : List XSection) (st : TrialBalanceLists)
    (h : lawfulLists st) : lawfulLists (processBS st secs) := by
  refine lawful_foldl bsProcessSection ?_ secs st h
  intro st1 s h1
  unfold bsProcessSection
  split
  · exact lawful_foldl (bsProcessRow (String.toLower s.title) s.title)
      (fun st2 row h2 => lawful_bsProcessRow _ _ st2 row h2) s.rows st1 h1
  · exact h1

theorem lawful_processPL (secs : List XSection) (st : TrialBalanceLists)
    (h : lawfulLists st) : lawfulLists (processPL st secs) := by
  refine lawful_foldl plProcessSection ?_ secs st h
  intro st1 s h1
  unfold plProcessSection
  split
  · exact lawful_foldl (plProcessRow (String.toLower s.title) s.title)
      (fun st2 row h2 => lawful_plProcessRow _ _ st2 row h2) s.rows st1 h1
  · exact h1

theorem lawful_initState : lawfulLists initState := by
  refine ⟨?_, ?_, ?_, ?_, ?_⟩ <;> intro r hm <;> simp [initState] at hm

/-- C2 as amended: every record produced by the classifier has
nonnegative debit and credit with at most one of them nonzero, and —
for records whose balance actually parsed to a number (not the JS `NaN`)
— assets carry `debit = max(balance,0)`, `credit = max(-balance,0)` (so
`debit - credit = balance`), liabilities and equity carry the reverse
split (so `credit - debit = balance`), revenue carries
`credit = |balance|, debit = 0` (so `credit - debit = |balance|`, not
`balance`), and expenses carry `debit = |balance|, credit = 0` (so
`debit - credit = |balance|`, not `balance`). -/
theorem c2_sign_law_amended (bsSecs plSecs : List XSection) :
    (∀ r ∈ (classifyReports bsSecs plSecs).assets, assetLaw r) ∧
    (∀ r ∈ (classifyReports bsSecs plSecs).liabilities, creditLaw r) ∧
    (∀ r ∈ (classifyReports bsSecs plSecs).equity, creditLaw r) ∧
    (∀ r ∈ (classifyReports bsSecs plSecs).revenue, revenueLaw r) ∧
    (∀ r ∈ (classifyReports bsSecs plSecs).expenses, expenseLaw r) :=
  lawful_processPL plSecs (processBS initState bsSecs)
    (lawful_processBS bsSecs initState lawful_initState)

/-- C2 witness: the `Cash` asset record of the sample balance sheet
satisfies the debit-nature law at balance 100. -/
theorem c2_sign_law_amended_witness :
    dcLaw { name := "Cash", balance := some 100, debit := some 100,
            credit := some 0, sectionTitle := "Bank Accounts" }
        (max 100 0) (max (-100) 0) ∧
      max (100 : ℚ) 0 - max (-100) 0 = 100 :=
  (c2_sign_law_amended exBS exPL).1
    { name := "Cash", balance := some 100, debit := some 100,
      credit := some 0, sectionTitle := "Bank Accounts" }
    (by with_unfolding_all decide) 100 rfl

theorem recCount_addDebitCredit (st : TrialBalanceLists) (acc : AccountRecord) :
    recCount (addDebitCredit st acc) = recCount st :=
  rfl

theorem recCount_bsClassify (tl t n : String) (v : JNum) (st : TrialBalanceLists)
    (h : matchesBS tl = true) : recCount (bsClassify tl t n v st).1 = recCount st + 1 := by
  unfold bsClassify
  split_ifs with h1 h2 h3
  · simp [recCount, List.length_append]; omega
  · simp [recCount, List.length_append]; omega
  · simp [recCount, List.length_append]; omega
  · exfalso
    unfold matchesBS at h
    simp only [Bool.or_eq_true] at h h1
    rcases h with ((h | h) | h) | h
    · exact h1 (Or.inl h)
    · exact h1 (Or.inr h)
    · exact h2 h
    · exact h3 h

theorem recCount_plClassify (tl t n : String) (v : JNum) (st : TrialBalanceLists)
    (h : matchesPL tl = true) : recCount (plClassify tl t n v st).1 = recCount st + 1 := by
  unfold plClassify
  split_ifs with h1 h2
  · simp [recCount, List.length_append]; omega
  · simp [recCount, List.length_append]; omega
  · exfalso
    unfold matchesPL at h
    simp only [Bool.or_eq_true] at h h1 h2
    rcases h with ((h | h) | h) | h
    · exact h1 (Or.inl h)
    · exact h1 (Or.inr h)
    · exact h2 (Or.inl h)
    · exact h2 (Or.inr h)

theorem bsProcessRow_not_data (tl t : String) (st : TrialBalanceLists) (row : XRow)
    (hd : isDataRow row = false) : bsProcessRow tl t st row = st := by
  obtain ⟨rt, cells⟩ := row
  unfold isDataRow at hd
  simp only [Bool.and_eq_false_iff] at hd
  unfold bsProcessRow
  rcases hd with hd | hd
  · simp [hd]
  · split
    · match cells, hd with
      | [], _ => rfl
      | [c0], _ => rfl
      | c0 :: c1 :: rest, hd => simp at hd
    · rfl

theorem plProcessRow_not_data (tl t : String) (st : TrialBalanceLists) (row : XRow)
    (hd : isDataRow row = false) : plProcessRow tl t st row = st := by
  obtain ⟨rt, cells⟩ := row
  unfold isDataRow at hd
  simp only [Bool.and_eq_false_iff] at hd
  unfold plProcessRow
  rcases hd with hd | hd
  · simp [hd]
  · split
    · match cells, hd with
      | [], _ => rfl
      | [c0], _ => rfl
      | c0 :: c1 :: rest, hd => simp at hd
    · rfl

theorem recCount_bsProcessRow_conform (tl t : String) (st : TrialBalanceLists) (row : XRow)
    (hbs : matchesBS tl = true) (hd : isDataRow row = true) (hc : rowConformsB row = true) :
    recCount (bsProcessRow tl t st row) = recCount st + 1 := by
  obtain ⟨rt, cells⟩ := row
  unfold isDataRow at hd
  simp only [Bool.and_eq_true, beq_iff_eq, decide_eq_true_eq] at hd
  obtain ⟨hrt, hlen⟩ := hd
  match cells, hlen with
  | c0 :: c1 :: rest, _ =>
    unfold rowConformsB rowName rowAmount at hc
    simp only [Bool.and_eq_true, Bool.not_eq_true'] at hc
    obtain ⟨⟨htot, hz⟩, _⟩ := hc
    unfold bsProcessRow
    rw [hrt]
    simp only [beq_self_eq_true, if_true]
    have hskip : skipRow c0.value (cellAmount c1.value) = false := by
      unfold skipRow
      rw [htot, hz]
      rfl
    rw [hskip]
    simp only [Bool.false_eq_true, if_false]
    rw [recCount_addDebitCredit]
    exact recCount_bsClassify tl t c0.value (cellAmount c1.value) st hbs

theorem recCount_plProcessRow_conform (tl t : String) (st : TrialBalanceLists) (row : XRow)
    (hpl : matchesPL tl = true) (hd : isDataRow row = true) (hc : rowConformsB row = true) :
    recCount (plProcessRow tl t st row) = recCount st + 1 := by
  obtain ⟨rt, cells⟩ := row
  unfold isDataRow at hd
  simp only [Bool.and_eq_true, beq_iff_eq, decide_eq_true_eq] at hd
  obtain ⟨hrt, hlen⟩ := hd
  match cells, hlen with
  | c0 :: c1 :: rest, _ =>
    unfold rowConformsB rowName rowAmount at hc
    simp only [Bool.and_eq_true, Bool.not_eq_true'] at hc
    obtain ⟨⟨htot, hz⟩, _⟩ := hc
    unfold plProcessRow
    rw [hrt]
    simp only [beq_self_eq_true, if_true]
    have hskip : skipRow c0.value (cellAmount c1.value) = false := by
      unfold skipRow
      rw [htot, hz]
      rfl
    rw [hskip]
    simp only [Bool.false_eq_true, if_false]
    rw [recCount_addDebitCredit]
    exact recCount_plClassify tl t c0.value (cellAmount c1.value) st hpl

theorem recCount_bs_rows (tl t : String) (hbs : matchesBS tl = true) (rows : List XRow)
    (hrows : ∀ row ∈ rows, isDataRow row = true → rowConformsB row = true) :
    ∀ st, recCount (rows.foldl (bsProcessRow tl t) st) = recCount st + rows.countP isDataRow := by
  induction rows with
  | nil => intro st; simp
  | cons row rows ih =>
    intro st
    have hrest : ∀ r ∈ rows, isDataRow r = true → rowConformsB r = true :=
      fun r hr => hrows r (List.mem_cons_of_mem row hr)
    by_cases hd : isDataRow row = true
    · rw [List.foldl_cons, ih hrest,
        recCount_bsProcessRow_conform tl t st row hbs hd (hrows row (List.mem_cons_self row rows) hd)]
      simp [List.countP_cons, hd]
      omega
    · rw [List.foldl_cons, bsProcessRow_not_data tl t st row (Bool.not_eq_true _ ▸ hd), ih hrest]
      simp [List.countP_cons, hd]

theorem recCount_pl_rows (tl t : String) (hpl : matchesPL tl = true) (rows : List XRow)
    (hrows : ∀ row ∈ rows, isDataRow row = true → rowConformsB row = true) :
    ∀ st, recCount (rows.foldl (plProcessRow tl t) st) = recCount st + rows.countP isDataRow := by
  induction rows with
  | nil => intro st; simp
  | cons row rows ih =>
    intro st
    have hrest : ∀ r ∈ rows, isDataRow r = true → rowConformsB r = true :=
      fun r hr => hrows r (List.mem_cons_of_mem row hr)
    by_cases hd : isDataRow row = true
    · rw [List.foldl_cons, ih hrest,
        recCount_plProcessRow_conform tl t st row hpl hd (hrows row (List.mem_cons_self row rows) hd)]
      simp [List.countP_cons, hd]
      omega
    · rw [List.foldl_cons, plProcessRow_not_data tl t st row (Bool.not_eq_true _ ▸ hd), ih hrest]
      simp [List.countP_cons, hd]

theorem recCount_bsProcessSection (st : TrialBalanceLists) (s : XSection)
    (hok : sectionKindOk ReportKind.balanceSheet s = true)
    (hrows : ∀ row ∈ s.rows, isDataRow row = true → rowConformsB row = true) :
    recCount (bsProcessSection st s) = recCount st + s.rows.countP isDataRow := by
  unfold sectionKindOk at hok
  simp only [Bool.and_eq_true] at hok
  obtain ⟨⟨hrt, hti⟩, hm⟩ := hok
  unfold bsProcessSection
  rw [hrt, hti]
  exact recCount_bs_rows (String.toLower s.title) s.title hm s.rows hrows st

theorem recCount_plProcessSection (st : TrialBalanceLists) (s : XSection)
    (hok : sectionKindOk ReportKind.profitAndLoss s = true)
    (hrows : ∀ row ∈ s.rows, isDataRow row = true → rowConformsB row = true) :
    recCount (plProcessSection st s) = recCount st + s.rows.countP isDataRow := by
  unfold sectionKindOk at hok
  simp only [Bool.and_eq_true] at hok
  obtain ⟨⟨hrt, hti⟩, hm⟩ := hok
  unfold plProcessSection
  rw [hrt, hti]
  exact recCount_pl_rows (String.toLower s.title) s.title hm s.rows hrows st

theorem recCount_processBS (secs : List XSection)
    (hsec : ∀ s ∈ secs, sectionKindOk ReportKind.balanceSheet s = true)
    (hrows : ∀ s ∈ secs, ∀ row ∈ s.rows, isDataRow row = true → rowConformsB row = true) :
    ∀ st, recCount (processBS st secs) = recCount st + dataRowCount secs := by
  induction secs with
  | nil => intro st; simp [processBS, dataRowCount]
  | cons s secs ih =>
    intro st
    have h1 := hsec s (List.mem_cons_self s secs)
    have h2 := hrows s (List.mem_cons_self s secs)
    have ih2 := ih (fun x hx => hsec x (List.mem_cons_of_mem s hx))
      (fun x hx => hrows x (List.mem_cons_of_mem s hx))
    unfold processBS at ih2 ⊢
    rw [List.foldl_cons, ih2, recCount_bsProcessSection st s h1 h2]
    unfold dataRowCount
    simp [Nat.add_assoc]

theorem recCount_processPL (secs : List XSection)
    (hsec : ∀ s ∈ secs, sectionKindOk ReportKind.profitAndLoss s = true)
    (hrows : ∀ s ∈ secs, ∀ row ∈ s.rows, isDataRow row = true → rowConformsB row = true) :
    ∀ st, recCount (processPL st secs) = recCount st + dataRowCount secs := by
  induction secs with
  | nil => intro st; simp [processPL, dataRowCount]
  | cons s secs ih =>
    intro st
    have h1 := hsec s (List.mem_cons_self s secs)
    have h2 := hrows s (List.mem_cons_self s secs)
    have ih2 := ih (fun x hx => hsec x (List.mem_cons_of_mem s hx))
      (fun x hx => hrows x (List.mem_cons_of_mem s hx))
    unfold processPL at ih2 ⊢
    rw [List.foldl_cons, ih2, recCount_plProcessSection st s h1 h2]
    unfold dataRowCount
    simp [Nat.add_assoc]

theorem mem_allRecs_bsClassify (tl t n : String) (v : JNum) (st : TrialBalanceLists)
    (r : AccountRecord) (hm : r ∈ allRecs (bsClassify tl t n v st).1) :
    r ∈ allRecs st ∨ (r.name = n ∧ r.balance = v) := by
  unfold bsClassify at hm
  split_ifs at hm with h1 h2 h3
  · simp only [allRecs, List.mem_append, List.mem_singleton, or_assoc] at hm
    rcases hm with hm | hme | hm | hm | hm | hm
    · exact Or.inl (by simp only [allRecs, List.mem_append, or_assoc]; tauto)
    · subst hme; exact Or.inr ⟨rfl, rfl⟩
    · exact Or.inl (by simp only [allRecs, List.mem_append, or_assoc]; tauto)
    · exact Or.inl (by simp only [allRecs, List.mem_append, or_assoc]; tauto)
    · exact Or.inl (by simp only [allRecs, List.mem_append, or_assoc]; tauto)
    · exact Or.inl (by simp only [allRecs, List.mem_append, or_assoc]; tauto)
  · simp only [allRecs, List.mem_append, List.mem_singleton, or_assoc] at hm
    rcases hm with hm | hm | hme | hm | hm | hm
    · exact Or.inl (by simp only [allRecs, List.mem_append, or_assoc]; tauto)
    · exact Or.inl (by simp only [allRecs, List.mem_append, or_assoc]; tauto)
    · subst hme; exact Or.inr ⟨rfl, rfl⟩
    · exact Or.inl (by simp only [allRecs, List.mem_append, or_assoc]; tauto)
    · exact Or.inl (by simp only [allRecs, List.mem_append, or_assoc]; tauto)
    · exact Or.inl (by simp only [allRecs, List.mem_append, or_assoc]; tauto)
  · simp only [allRecs, List.mem_append, List.mem_singleton, or_assoc] at hm
    rcases hm with hm | hm | hm | hme | hm | hm
    · exact Or.inl (by simp only [allRecs, List.mem_append, or_assoc]; tauto)
    · exact Or.inl (by simp only [allRecs, List.mem_append, or_assoc]; tauto)
    · exact Or.inl (by simp only [allRecs, List.mem_append, or_assoc]; tauto)
    · subst hme; exact Or.inr ⟨rfl, rfl⟩
    · exact Or.inl (by simp only [allRecs, List.mem_append, or_assoc]; tauto)
    · exact Or.inl (by simp only [allRecs, List.mem_append, or_assoc]; tauto)
  · exact Or.inl hm

theorem mem_allRecs_plClassify (tl t n : String) (v : JNum) (st : TrialBalanceLists)
    (r : AccountRecord) (hm : r ∈ allRecs (plClassify tl t n v st).1) :
    r ∈ allRecs st ∨ (r.name = n ∧ r.balance = v) := by
  unfold plClassify at hm
  split_ifs at hm with h1 h2
  · simp only [allRecs, List.mem_append, List.mem_singleton, or_assoc] at hm
    rcases hm with hm | hm | hm | hm | hme | hm
    · exact Or.inl (by simp only [allRecs, List.mem_append, or_assoc]; tauto)
    · exact Or.inl (by simp only [allRecs, List.mem_append, or_assoc]; tauto)
    · exact Or.inl (by simp only [allRecs, List.mem_append, or_assoc]; tauto)
    · exact Or.inl (by simp only [allRecs, List.mem_append, or_assoc]; tauto)
    · subst hme; exact Or.inr ⟨rfl, rfl⟩
    · exact Or.inl (by simp only [allRecs, List.mem_append, or_assoc]; tauto)
  · simp only [allRecs, List.mem_append, List.mem_singleton, or_assoc] at hm
    rcases hm with hm | hm | hm | hm | hm | hme
    · exact Or.inl (by simp only [allRecs, List.mem_append, or_assoc]; tauto)
    · exact Or.inl (by simp only [allRecs, List.mem_append, or_assoc]; tauto)
    · exact Or.inl (by simp only [allRecs, List.mem_append, or_assoc]; tauto)
    · exact Or.inl (by simp only [allRecs, List.mem_append, or_assoc]; tauto)
    · exact Or.inl (by simp only [allRecs, List.mem_append, or_assoc]; tauto)
    · subst hme; exact Or.inr ⟨rfl, rfl⟩
  · exact Or.inl hm

theorem mem_allRecs_bsProcessRow (tl t : String) (st : TrialBalanceLists) (row : XRow)
    (r : AccountRecord) (hm : r ∈ allRecs (bsProcessRow tl t st row)) :
    r ∈ allRecs st ∨
      (isDataRow row = true ∧ r.name = rowName row ∧ r.balance = rowAmount row) := by
  obtain ⟨rt, cells⟩ := row
  unfold bsProcessRow at hm
  by_cases hrt : (rt == "Row") = true
  · rw [if_pos hrt] at hm
    rcases cells with _ | ⟨c0, cells2⟩
    · exact Or.inl hm
    rcases cells2 with _ | ⟨c1, rest⟩
    · exact Or.inl hm
    dsimp only at hm
    by_cases hs : skipRow c0.value (cellAmount c1.value) = true
    · rw [if_pos hs] at hm
      exact Or.inl hm
    · rw [if_neg hs] at hm
      rcases mem_allRecs_bsClassify tl t c0.value (cellAmount c1.value) st r hm with hm2 | hm2
      · exact Or.inl hm2
      · refine Or.inr ⟨?_, hm2.1, hm2.2⟩
        simp [isDataRow, hrt]
  · rw [if_neg hrt] at hm
    exact Or.inl hm

theorem mem_allRecs_plProcessRow (tl t : String) (st : TrialBalanceLists) (row : XRow)
    (r : AccountRecord) (hm : r ∈ allRecs (plProcessRow tl t st row)) :
    r ∈ allRecs st ∨
      (isDataRow row = true ∧ r.name = rowName row ∧ r.balance = rowAmount row) := by
  obtain ⟨rt, cells⟩ := row
  unfold plProcessRow at hm
  by_cases hrt : (rt == "Row") = true
  · rw [if_pos hrt] at hm
    rcases cells with _ | ⟨c0, cells2⟩
    · exact Or.inl hm
    rcases cells2 with _ | ⟨c1, rest⟩
    · exact Or.inl hm
    dsimp only at hm
    by_cases hs : skipRow c0.value (cellAmount c1.value) = true
    · rw [if_pos hs] at hm
      exact Or.inl hm
    · rw [if_neg hs] at hm
      rcases mem_allRecs_plClassify tl t c0.value (cellAmount c1.value) st r hm with hm2 | hm2
      · exact Or.inl hm2
      · refine Or.inr ⟨?_, hm2.1, hm2.2⟩
        simp [isDataRow, hrt]
  · rw [if_neg hrt] at hm
    exact Or.inl hm

theorem mem_allRecs_bs_rows (tl t : String) (rows : List XRow) :
    ∀ (st : TrialBalanceLists) (r : AccountRecord),
      r ∈ allRecs (rows.foldl (bsProcessRow tl t) st) →
      r ∈ allRecs st ∨ ∃ row ∈ rows,
        isDataRow row = true ∧ r.name = rowName row ∧ r.balance = rowAmount row := by
  induction rows with
  | nil => intro st r hm; exact Or.inl hm
  | cons row rows ih =>
    intro st r hm
    rw [List.foldl_cons] at hm
    rcases ih (bsProcessRow tl t st row) r hm with hm2 | ⟨row2, hrow2, hp⟩
    · rcases mem_allRecs_bsProcessRow tl t st row r hm2 with hm3 | hp
      · exact Or.inl hm3
      · exact Or.inr ⟨row, List.mem_cons_self row rows, hp⟩
    · exact Or.inr ⟨row2, List.mem_cons_of_mem row hrow2, hp⟩

theorem mem_allRecs_pl_rows (tl t : String) (rows : List XRow) :
    ∀ (st : TrialBalanceLists) (r : AccountRecord),
      r ∈ allRecs (rows.foldl (plProcessRow tl t) st) →
      r ∈ allRecs st ∨ ∃ row ∈ rows,
        isDataRow row = true ∧ r.name = rowName row ∧ r.balance = rowAmount row := by
  induction rows with
  | nil => intro st r hm; exact Or.inl hm
  | cons row rows ih =>
    intro st r hm
    rw [List.foldl_cons] at hm
    rcases ih (plProcessRow tl t st row) r hm with hm2 | ⟨row2, hrow2, hp⟩
    · rcases mem_allRecs_plProcessRow tl t st row r hm2 with hm3 | hp
      · exact Or.inl hm3
      · exact Or.inr ⟨row, List.mem_cons_self row rows, hp⟩
    · exact Or.inr ⟨row2, List.mem_cons_of_mem row hrow2, hp⟩

theorem mem_allRecs_processBS (secs : List XSection) :
    ∀ (st : TrialBalanceLists) (r : AccountRecord),
      r ∈ allRecs (processBS st secs) →
      r ∈ allRecs st ∨ ∃ s ∈ secs, ∃ row ∈ s.rows,
        isDataRow row = true ∧ r.name = rowName row ∧ r.balance = rowAmount row := by
  induction secs with
  | nil => intro st r hm; exact Or.inl hm
  | cons s secs ih =>
    intro st r hm
    unfold processBS at hm
    rw [List.foldl_cons] at hm
    rcases ih (bsProcessSection st s) r hm with hm2 | ⟨s2, hs2, hp⟩
    · unfold bsProcessSection at hm2
      by_cases hc : (s.rowType == "Section" && s.title != "") = true
      · rw [if_pos hc] at hm2
        rcases mem_allRecs_bs_rows (String.toLower s.title) s.title s.rows st r hm2 with
          hm3 | ⟨row, hrow, hp⟩
        · exact Or.inl hm3
        · exact Or.inr ⟨s, List.mem_cons_self s secs, row, hrow, hp⟩
      · rw [if_neg hc] at hm2
        exact Or.inl hm2
    · exact Or.inr ⟨s2, List.mem_cons_of_mem s hs2, hp⟩

theorem mem_allRecs_processPL (secs : List XSection) :
    ∀ (st : TrialBalanceLists) (r : AccountRecord),
      r ∈ allRecs (processPL st secs) →
      r ∈ allRecs st ∨ ∃ s ∈ secs, ∃ row ∈ s.rows,
        isDataRow row = true ∧ r.name = rowName row ∧ r.balance = rowAmount row := by
  induction secs with
  | nil => intro st r hm; exact Or.inl hm
  | cons s secs ih =>
    intro st r hm
    unfold processPL at hm
    rw [List.foldl_cons] at hm
    rcases ih (plProcessSection st s) r hm with hm2 | ⟨s2, hs2, hp⟩
    · unfold plProcessSection at hm2
      by_cases hc : (s.rowType == "Section" && s.title != "") = true
      · rw [if_pos hc] at hm2
        rcases mem_allRecs_pl_rows (String.toLower s.title) s.title s.rows st r hm2 with
          hm3 | ⟨row, hrow, hp⟩
        · exact Or.inl hm3
        · exact Or.inr ⟨s, List.mem_cons_self s secs, row, hrow, hp⟩
      · rw [if_neg hc] at hm2
        exact Or.inl hm2
    · exact Or.inr ⟨s2, List.mem_cons_of_mem s hs2, hp⟩

theorem processRow_skip (tl t : String) (st : TrialBalanceLists) (row : XRow)
    (hd : isDataRow row = true)
    (hskip : strIncludes (String.toLower (rowName row)) "total" = true ∨
      rowAmount row = some 0) :
    bsProcessRow tl t st row = st ∧ plProcessRow tl t st row = st := by
  obtain ⟨rt, cells⟩ := row
  unfold isDataRow at hd
  simp only [Bool.and_eq_true, beq_iff_eq, decide_eq_true_eq] at hd
  obtain ⟨hrt, hlen⟩ := hd
  rcases cells with _ | ⟨c0, cells2⟩
  · simp at hlen
  rcases cells2 with _ | ⟨c1, rest⟩
  · simp at hlen
  dsimp only [rowName, rowAmount] at hskip
  have hs : skipRow c0.value (cellAmount c1.value) = true := by
    unfold skipRow
    rcases hskip with h | h
    · simp only [h, Bool.true_or]
    · simp [h, jeq0]
  constructor
  · unfold bsProcessRow
    rw [hrt]
    simp [hs]
  · unfold plProcessRow
    rw [hrt]
    simp [hs]

/-- C3 as amended: the completeness property holds per report shape — for
the balance-sheet pass all section titles must match the bank/asset,
liabilit or equity keyword sets, and for the P&L pass the income/revenue
or expense/cost sets (a section title matching only a category of the
other pass is silently dropped, as the counterexample shows).  Under that
hypothesis, with every data row non-"total"-named and parsing to a
nonzero number, the classifier produces exactly one record per data row,
each preserving its row's name and parsed amount, and any data row whose
name contains "total" or whose amount is exactly 0 leaves the state
unchanged. -/
theorem c3_classification_completeness_amended (k : ReportKind) (secs : List XSection)
    (hsec : ∀ s ∈ secs, sectionKindOk k s = true)
    (hrows : ∀ s ∈ secs, ∀ row ∈ s.rows, isDataRow row = true → rowConformsB row = true) :
    recCount (classifyReport k secs) = dataRowCount secs ∧
    (∀ r ∈ allRecs (classifyReport k secs), ∃ s ∈ secs, ∃ row ∈ s.rows,
      isDataRow row = true ∧ r.name = rowName row ∧ r.balance = rowAmount row) ∧
    (∀ (tl t : String) (st : TrialBalanceLists) (row : XRow), isDataRow row = true →
      (strIncludes (String.toLower (rowName row)) "total" = true ∨ rowAmount row = some 0) →
      bsProcessRow tl t st row = st ∧ plProcessRow tl t st row = st) := by
  refine ⟨?_, ?_, fun tl t st row hd hs => processRow_skip tl t st row hd hs⟩
  · cases k with
    | balanceSheet =>
      have h := recCount_processBS secs hsec hrows initState
      have h0 : recCount initState = 0 := rfl
      rw [h0, Nat.zero_add] at h
      exact h
    | profitAndLoss =>
      have h := recCount_processPL secs hsec hrows initState
      have h0 : recCount initState = 0 := rfl
      rw [h0, Nat.zero_add] at h
      exact h
  · cases k with
    | balanceSheet =>
      intro r hm
      rcases mem_allRecs_processBS secs initState r hm with hm2 | hp
      · simp [allRecs, initState] at hm2
      · exact hp
    | profitAndLoss =>
      intro r hm
      rcases mem_allRecs_processPL secs initState r hm with hm2 | hp
      · simp [allRecs, initState] at hm2
      · exact hp

/-- C3 witness: the sample balance sheet has three conforming data rows
and the balance-sheet pass produces exactly three records. -/
theorem c3_classification_completeness_amended_witness :
    recCount (classifyReport ReportKind.balanceSheet exBS) = dataRowCount exBS :=
  (c3_classification_completeness_amended ReportKind.balanceSheet exBS
    (by with_unfolding_all decide) (by with_unfolding_all decide)).1

/-- C8 as amended: a row with missing cells (fewer than two, or the wrong
`rowType`), a "total"-containing name, or an amount cell that is
missing/empty (JS-coerced to 0) or parsing to exactly 0 is skipped: no
record is produced and no total changes; row processing is a total
function, so it never throws.  (A row whose non-empty amount string fails
to parse is NOT skipped — see the counterexample — which forces the
parsed-to-0 restriction here.) -/
theorem c8_malformed_row_amended (tl t : String) (st : TrialBalanceLists) (row : XRow)
    (h : isDataRow row = false ∨
      strIncludes (String.toLower (rowName row)) "total" = true ∨
      rowAmount row = some 0) :
    bsProcessRow tl t st row = st ∧ plProcessRow tl t st row = st := by
  by_cases hd : isDataRow row = true
  · rcases h with h | h
    · rw [hd] at h; exact absurd h (by simp)
    · exact processRow_skip tl t st row hd h
  · have hd2 : isDataRow row = false := by
      rcases Bool.eq_false_or_eq_true (isDataRow row) with h2 | h2
      · exact absurd h2 hd
      · exact h2
    exact ⟨bsProcessRow_not_data tl t st row hd2, plProcessRow_not_data tl t st row hd2⟩

/-- C8 witness: a row whose amount cell is the empty string (the
JS-falsy case coerced to 0) is skipped by both passes. -/
theorem c8_malformed_row_amended_witness :
    bsProcessRow "other assets" "Other Assets" initState (mkRow "Thing" "") = initState ∧
    plProcessRow "other assets" "Other Assets" initState (mkRow "Thing" "") = initState :=
  c8_malformed_row_amended "other assets" "Other Assets" initState (mkRow "Thing" "")
    (Or.inr (Or.inr (by with_unfolding_all decide)))

theorem consAccum_totals (fetch : String → Option TBResponse) (l : List XConnection) :
    ∀ st : ConsAccum,
      (l.foldl (consolidateStep fetch) st).totals =
        (l.filterMap (fun c => fetch c.tenantId)).foldl
          (fun t r => addTotals t r.trialBalance.totals) st.totals := by
  induction l with
  | nil => intro st; rfl
  | cons c l ih =>
    intro st
    rw [List.foldl_cons]
    cases h : fetch c.tenantId with
    | none =>
      have hstep : consolidateStep fetch st c = st := by
        unfold consolidateStep; rw [h]
      have hfm : (c :: l).filterMap (fun x => fetch x.tenantId) =
          l.filterMap (fun x => fetch x.tenantId) := by
        rw [List.filterMap_cons]; simp [h]
      rw [hstep, hfm, ih st]
    | some resp =>
      have hstep : consolidateStep fetch st c =
          { companies := st.companies ++ [mkCompanyData c resp],
            totals := addTotals st.totals resp.trialBalance.totals } := by
        unfold consolidateStep; rw [h]
      have hfm : (c :: l).filterMap (fun x => fetch x.tenantId) =
          resp :: l.filterMap (fun x => fetch x.tenantId) := by
        rw [List.filterMap_cons]; simp [h]
      rw [hstep, hfm, List.foldl_cons, ih]

theorem foldl_addTotals_field (f : Totals → JNum)
    (hf : ∀ a b, f (addTotals a b) = jadd (f a) (f b)) :
    ∀ (l : List TBResponse) (t0 : Totals),
      f (l.foldl (fun t r => addTotals t r.trialBalance.totals) t0) =
        (l.map (fun r => f r.trialBalance.totals)).foldl jadd (f t0) := by
  intro l
  induction l with
  | nil => intro t0; rfl
  | cons r l ih =>
    intro t0
    rw [List.foldl_cons, List.map_cons, List.foldl_cons, ih, hf]

/-- C4: each consolidated totals field equals the JS running sum (from the
0 initialiser) of that field over exactly the successfully fetched
connected entities; entities whose fetch failed contribute nothing. -/
theorem c4_consolidation_additivity (conns : List XConnection)
    (fetch : String → Option TBResponse) :
    (buildConsolidated conns fetch).consolidated.totals.totalDebits =
      jsum (((conns.filter (fun c => c.connected)).filterMap
        (fun c => fetch c.tenantId)).map (fun r => r.trialBalance.totals.totalDebits)) ∧
    (buildConsolidated conns fetch).consolidated.totals.totalCredits =
      jsum (((conns.filter (fun c => c.connected)).filterMap
        (fun c => fetch c.tenantId)).map (fun r => r.trialBalance.totals.totalCredits)) ∧
    (buildConsolidated conns fetch).consolidated.totals.totalAssets =
      jsum (((conns.filter (fun c => c.connected)).filterMap
        (fun c => fetch c.tenantId)).map (fun r => r.trialBalance.totals.totalAssets)) ∧
    (buildConsolidated conns fetch).consolidated.totals.totalLiabilities =
      jsum (((conns.filter (fun c => c.connected)).filterMap
        (fun c => fetch c.tenantId)).map (fun r => r.trialBalance.totals.totalLiabilities)) ∧
    (buildConsolidated conns fetch).consolidated.totals.totalEquity =
      jsum (((conns.filter (fun c => c.connected)).filterMap
        (fun c => fetch c.tenantId)).map (fun r => r.trialBalance.totals.totalEquity)) ∧
    (buildConsolidated conns fetch).consolidated.totals.totalRevenue =
      jsum (((conns.filter (fun c => c.connected)).filterMap
        (fun c => fetch c.tenantId)).map (fun r => r.trialBalance.totals.totalRevenue)) ∧
    (buildConsolidated conns fetch).consolidated.totals.totalExpenses =
      jsum (((conns.filter (fun c => c.connected)).filterMap
        (fun c => fetch c.tenantId)).map (fun r => r.trialBalance.totals.totalExpenses)) := by
  have h1 : (buildConsolidated conns fetch).consolidated.totals =
      (((conns.filter (fun c => c.connected)).filterMap (fun c => fetch c.tenantId)).foldl
        (fun t r => addTotals t r.trialBalance.totals) zeroTotals) :=
    consAccum_totals fetch (conns.filter (fun c => c.connected))
      { companies := [], totals := zeroTotals }
  exact ⟨(congrArg Totals.totalDebits h1).trans
      (foldl_addTotals_field (fun t => t.totalDebits) (fun a b => rfl) _ zeroTotals),
    (congrArg Totals.totalCredits h1).trans
      (foldl_addTotals_field (fun t => t.totalCredits) (fun a b => rfl) _ zeroTotals),
    (congrArg Totals.totalAssets h1).trans
      (foldl_addTotals_field (fun t => t.totalAssets) (fun a b => rfl) _ zeroTotals),
    (congrArg Totals.totalLiabilities h1).trans
      (foldl_addTotals_field (fun t => t.totalLiabilities) (fun a b => rfl) _ zeroTotals),
    (congrArg Totals.totalEquity h1).trans
      (foldl_addTotals_field (fun t => t.totalEquity) (fun a b => rfl) _ zeroTotals),
    (congrArg Totals.totalRevenue h1).trans
      (foldl_addTotals_field (fun t => t.totalRevenue) (fun a b => rfl) _ zeroTotals),
    (congrArg Totals.totalExpenses h1).trans
      (foldl_addTotals_field (fun t => t.totalExpenses) (fun a b => rfl) _ zeroTotals)⟩

/-- C5: with three connected entities of which exactly one's trial-balance
fetch fails (any position), the consolidation still returns a result whose
companies list holds exactly the other two entities in input order,
`summary.dataQuality.allConnected` is `false` (2 companies versus 3
connected entities), and the consolidated totals are the sum of the two
surviving entities' totals only. -/
theorem c5_partial_failure_isolation (c1 c2 c3 : XConnection)
    (fetch : String → Option TBResponse) (tA tB : TBResponse)
    (h1 : c1.connected = true) (h2 : c2.connected = true) (h3 : c3.connected = true) :
    (fetch c1.tenantId = none → fetch c2.tenantId = some tA → fetch c3.tenantId = some tB →
      (buildConsolidated [c1, c2, c3] fetch).companies =
          [mkCompanyData c2 tA, mkCompanyData c3 tB] ∧
        (buildConsolidated [c1, c2, c3] fetch).summary.dataQuality.allConnected = false ∧
        (buildConsolidated [c1, c2, c3] fetch).consolidated.totals =
          addTotals (addTotals zeroTotals tA.trialBalance.totals) tB.trialBalance.totals) ∧
    (fetch c2.tenantId = none → fetch c1.tenantId = some tA → fetch c3.tenantId = some tB →
      (buildConsolidated [c1, c2, c3] fetch).companies =
          [mkCompanyData c1 tA, mkCompanyData c3 tB] ∧
        (buildConsolidated [c1, c2, c3] fetch).summary.dataQuality.allConnected = false ∧
        (buildConsolidated [c1, c2, c3] fetch).consolidated.totals =
          addTotals (addTotals zeroTotals tA.trialBalance.totals) tB.trialBalance.totals) ∧
    (fetch c3.tenantId = none → fetch c1.tenantId = some tA → fetch c2.tenantId = some tB →
      (buildConsolidated [c1, c2, c3] fetch).companies =
          [mkCompanyData c1 tA, mkCompanyData c2 tB] ∧
        (buildConsolidated [c1, c2, c3] fetch).summary.dataQuality.allConnected = false ∧
        (buildConsolidated [c1, c2, c3] fetch).consolidated.totals =
          addTotals (addTotals zeroTotals tA.trialBalance.totals) tB.trialBalance.totals) := by
  have hfil : [c1, c2, c3].filter (fun c => c.connected) = [c1, c2, c3] := by
    simp [List.filter, h1, h2, h3]
  refine ⟨?_, ?_, ?_⟩ <;> intro hx hy hz <;>
    simp [buildConsolidated, hfil, consolidateStep, hx, hy, hz]

/-- C5 witness: of the three sample entities, the middle one's fetch
fails; the other two survive and `allConnected` is false. -/
theorem c5_partial_failure_isolation_witness :
    (buildConsolidated [exConn1, exConn2, exConn3] exFetch).companies =
        [mkCompanyData exConn1 exTB, mkCompanyData exConn3 exTB] ∧
      (buildConsolidated [exConn1, exConn2, exConn3] exFetch).summary.dataQuality.allConnected =
        false ∧
      (buildConsolidated [exConn1, exConn2, exConn3] exFetch).consolidated.totals =
        addTotals (addTotals zeroTotals exTB.trialBalance.totals) exTB.trialBalance.totals :=
  (c5_partial_failure_isolation exConn1 exConn2 exConn3 exFetch exTB exTB
      rfl rfl rfl).2.1
    (by with_unfolding_all decide) (by with_unfolding_all decide)
    (by with_unfolding_all decide)

/-- C10: the consolidated endpoint only processes entities whose stored
token is unexpired (`connected = now < expires_at`): removing an expired
row from storage changes nothing in the result — the expired entity is
absent from `companies`, contributes nothing to the totals, and is not in
the `allConnected` denominator, so an expired token can never make
`summary.dataQuality.allConnected` false. -/
theorem c10_expired_token_excluded (now : Int) (rows1 rows2 : List TokenRow)
    (e : TokenRow) (he : ¬ now < e.expiresAt) (fetch : String → Option TBResponse) :
    buildConsolidatedFromRows now (rows1 ++ e :: rows2) fetch =
      buildConsolidatedFromRows now (rows1 ++ rows2) fetch := by
  have hconn : ((getAllXeroConnections now (rows1 ++ e :: rows2)).filter
        (fun c => c.connected)) =
      ((getAllXeroConnections now (rows1 ++ rows2)).filter (fun c => c.connected)) := by
    unfold getAllXeroConnections
    rw [List.map_append, List.map_cons, List.map_append,
      List.filter_append, List.filter_append, List.filter_cons]
    simp [he]
  unfold buildConsolidatedFromRows buildConsolidated
  rw [hconn]

/-- C10 witness: dropping the expired sample row from storage leaves the
consolidated result unchanged. -/
theorem c10_expired_token_excluded_witness :
    buildConsolidatedFromRows 100 ([exRowLive] ++ exRowExpired :: []) exFetchLive =
      buildConsolidatedFromRows 100 ([exRowLive] ++ []) exFetchLive :=
  c10_expired_token_excluded 100 [exRowLive] [] exRowExpired
    (by with_unfolding_all decide) exFetchLive

theorem jgtB_abs_some {x : JNum} {c : ℚ} (h : jgtB (jabs x) (some c) = true) :
    ∃ q, x = some q ∧ c < |q| := by
  cases x with
  | none => simp [jabs, jgtB] at h
  | some q => exact ⟨q, rfl, by simpa [jabs, jgtB] using h⟩

theorem matchedEntry_some {toAccs : List AccountRecord} {fa : AccountRecord}
    {e : AccountChange} (h : matchedEntry toAccs fa = some e) :
    ∃ ta, findByName toAccs fa.name = some ta ∧
      jgtB (jabs (jsub ta.balance fa.balance)) (some 1000) = true ∧
      e = { accountName := fa.name, fromBalance := fa.balance, toBalance := ta.balance,
            change := jsub ta.balance fa.balance,
            changeType := if jgtB (jsub ta.balance fa.balance) (some 0) = true
              then "INCREASE" else "DECREASE" } := by
  unfold matchedEntry at h
  cases hf : findByName toAccs fa.name with
  | none => rw [hf] at h; cases h
  | some ta =>
    rw [hf] at h
    dsimp only at h
    by_cases hg : jgtB (jabs (jsub ta.balance fa.balance)) (some 1000) = true
    · rw [if_pos hg] at h
      exact ⟨ta, rfl, hg, (Option.some_inj.1 h).symm⟩
    · rw [if_neg hg] at h
      cases h

theorem newEntry_some {fromAccs : List AccountRecord} {ta : AccountRecord}
    {e : AccountChange} (h : newEntry fromAccs ta = some e) :
    findByName fromAccs ta.name = none ∧
      jgtB (jabs ta.balance) (some 1000) = true ∧
      e = { accountName := ta.name, fromBalance := some 0, toBalance := ta.balance,
            change := ta.balance, changeType := "NEW_ACCOUNT" } := by
  unfold newEntry at h
  cases hf : findByName fromAccs ta.name with
  | some x => rw [hf] at h; cases h
  | none =>
    rw [hf] at h
    by_cases hg : jgtB (jabs ta.balance) (some 1000) = true
    · rw [if_pos hg] at h
      exact ⟨rfl, hg, (Option.some_inj.1 h).symm⟩
    · rw [if_neg hg] at h
      cases h

theorem mem_accountChanges_iff (fromD toD : TBResponse) (af : Option String)
    (e : AccountChange) :
    e ∈ (comparePeriods fromD toD af).accountChanges ↔
      e ∈ (bsAccountsOf fromD.trialBalance).filterMap
            (matchedEntry (bsAccountsOf toD.trialBalance)) ++
          (bsAccountsOf toD.trialBalance).filterMap
            (newEntry (bsAccountsOf fromD.trialBalance)) :=
  (List.perm_insertionSort absGe _).mem_iff

/-- C6: over the union of the two periods' asset+liability+equity account
names (revenue/expense excluded), assuming account names are unique within
each period: an account present in both periods (with parsed balances)
appears in `accountChanges` exactly when `|toBalance - fromBalance| >
1000`, and then only as the entry with `change = toBalance - fromBalance`
and type INCREASE when the change is positive, DECREASE otherwise; an
account present only in the "to" period appears exactly when
`|toBalance| > 1000`, as a NEW_ACCOUNT entry with `fromBalance = 0`;
accounts present only in the "from" period never appear; `accountChanges`
is sorted descending by `|change|` (every entry's change is a number
exceeding 1000); and `significantChanges` is exactly the
`|change| > 100000` subset of `accountChanges`. -/
theorem c6_period_comparison (fromD toD : TBResponse) (af : Option String)
    (hfrom : ((bsAccountsOf fromD.trialBalance).map (fun a => a.name)).Nodup)
    (hto : ((bsAccountsOf toD.trialBalance).map (fun a => a.name)).Nodup) :
    (∀ nm fa ta qf qt, findByName (bsAccountsOf fromD.trialBalance) nm = some fa →
      findByName (bsAccountsOf toD.trialBalance) nm = some ta →
      fa.balance = some qf → ta.balance = some qt →
      (((∃ e ∈ (comparePeriods fromD toD af).accountChanges, e.accountName = nm) ↔
          1000 < |qt - qf|) ∧
        ∀ e ∈ (comparePeriods fromD toD af).accountChanges, e.accountName = nm →
          e = { accountName := nm, fromBalance := some qf, toBalance := some qt,
                change := some (qt - qf),
                changeType := if 0 < qt - qf then "INCREASE" else "DECREASE" })) ∧
    (∀ nm ta qt, findByName (bsAccountsOf fromD.trialBalance) nm = none →
      findByName (bsAccountsOf toD.trialBalance) nm = some ta →
      ta.balance = some qt →
      (((∃ e ∈ (comparePeriods fromD toD af).accountChanges, e.accountName = nm) ↔
          1000 < |qt|) ∧
        ∀ e ∈ (comparePeriods fromD toD af).accountChanges, e.accountName = nm →
          e = { accountName := nm, fromBalance := some 0, toBalance := some qt,
                change := some qt, changeType := "NEW_ACCOUNT" })) ∧
    (∀ nm, findByName (bsAccountsOf toD.trialBalance) nm = none →
      ∀ e ∈ (comparePeriods fromD toD af).accountChanges, e.accountName ≠ nm) ∧
    List.Sorted absGe (comparePeriods fromD toD af).accountChanges ∧
    (∀ e ∈ (comparePeriods fromD toD af).accountChanges,
      ∃ q, e.change = some q ∧ 1000 < |q|) ∧
    (comparePeriods fromD toD af).significantChanges =
      (comparePeriods fromD toD af).accountChanges.filter
        (fun e => jgtB (jabs e.change) (some 100000)) := by
  refine ⟨?_, ?_, ?_, List.sorted_insertionSort absGe _, ?_, rfl⟩
  · -- (a) accounts present in both periods
    intro nm fa ta qf qt hffind htfind hfb htb
    have hfa_mem : fa ∈ bsAccountsOf fromD.trialBalance := List.mem_of_find?_eq_some hffind
    have hfa_name : fa.name = nm := by simpa using List.find?_some hffind
    have key : ∀ e ∈ (comparePeriods fromD toD af).accountChanges, e.accountName = nm →
        1000 < |qt - qf| ∧
          e = { accountName := nm, fromBalance := some qf, toBalance := some qt,
                change := some (qt - qf),
                changeType := if 0 < qt - qf then "INCREASE" else "DECREASE" } := by
      intro e he hname
      rcases List.mem_append.1 ((mem_accountChanges_iff fromD toD af e).1 he) with hm | hm
      · obtain ⟨fa2, hfa2, hme⟩ := List.mem_filterMap.1 hm
        obtain ⟨ta2, htfind2, hguard, hE⟩ := matchedEntry_some hme
        have hname2 : fa2.name = nm := by rw [hE] at hname; exact hname
        have hfa2eq : fa2 = fa :=
          List.inj_on_of_nodup_map hfrom hfa2 hfa_mem (by rw [hname2, hfa_name])
        subst hfa2eq
        rw [hfa_name, htfind] at htfind2
        have hta2 : ta2 = ta := Option.some_inj.1 htfind2.symm
        subst hta2
        rw [hfb, htb] at hguard hE
        have hq : 1000 < |qt - qf| := by simpa [jsub, jabs, jgtB] using hguard
        refine ⟨hq, ?_⟩
        rw [hE, hfa_name]
        simp [jsub, jgtB, decide_eq_true_eq]
      · obtain ⟨ta2, hta2, hne⟩ := List.mem_filterMap.1 hm
        obtain ⟨hnone, hg2, hE⟩ := newEntry_some hne
        have hname2 : ta2.name = nm := by rw [hE] at hname; exact hname
        rw [hname2, hffind] at hnone
        cases hnone
    refine ⟨⟨?_, ?_⟩, fun e he hname => (key e he hname).2⟩
    · rintro ⟨e, he, hname⟩
      exact (key e he hname).1
    · intro hq
      have hME : matchedEntry (bsAccountsOf toD.trialBalance) fa = some
          { accountName := nm, fromBalance := some qf, toBalance := some qt,
            change := some (qt - qf),
            changeType := if 0 < qt - qf then "INCREASE" else "DECREASE" } := by
        unfold matchedEntry
        rw [hfa_name, htfind]
        dsimp only
        rw [hfb, htb]
        have hg : jgtB (jabs (jsub (some qt) (some qf))) (some 1000) = true := by
          simp [jsub, jabs, jgtB, hq]
        rw [if_pos hg]
        simp [jsub, jgtB, decide_eq_true_eq]
      exact ⟨_, (mem_accountChanges_iff fromD toD af _).2
        (List.mem_append.2 (Or.inl (List.mem_filterMap.2 ⟨fa, hfa_mem, hME⟩))), rfl⟩
  · -- (b) accounts only in the "to" period
    intro nm ta qt hffind htfind htb
    have hta_mem : ta ∈ bsAccountsOf toD.trialBalance := List.mem_of_find?_eq_some htfind
    have hta_name : ta.name = nm := by simpa using List.find?_some htfind
    have key : ∀ e ∈ (comparePeriods fromD toD af).accountChanges, e.accountName = nm →
        1000 < |qt| ∧
          e = { accountName := nm, fromBalance := some 0, toBalance := some qt,
                change := some qt, changeType := "NEW_ACCOUNT" } := by
      intro e he hname
      rcases List.mem_append.1 ((mem_accountChanges_iff fromD toD af e).1 he) with hm | hm
      · obtain ⟨fa2, hfa2, hme⟩ := List.mem_filterMap.1 hm
        obtain ⟨ta2, htfind2, hguard, hE⟩ := matchedEntry_some hme
        have hname2 : fa2.name = nm := by rw [hE] at hname; exact hname
        have := List.find?_eq_none.1 hffind fa2 hfa2
        simp [hname2] at this
      · obtain ⟨ta2, hta2, hne⟩ := List.mem_filterMap.1 hm
        obtain ⟨hnone, hguard, hE⟩ := newEntry_some hne
        have hname2 : ta2.name = nm := by rw [hE] at hname; exact hname
        have hta2eq : ta2 = ta :=
          List.inj_on_of_nodup_map hto hta2 hta_mem (by rw [hname2, hta_name])
        subst hta2eq
        rw [htb] at hguard hE
        have hq : 1000 < |qt| := by simpa [jabs, jgtB] using hguard
        exact ⟨hq, by rw [hE, hta_name]⟩
    refine ⟨⟨?_, ?_⟩, fun e he hname => (key e he hname).2⟩
    · rintro ⟨e, he, hname⟩
      exact (key e he hname).1
    · intro hq
      have hNE : newEntry (bsAccountsOf fromD.trialBalance) ta = some
          { accountName := nm, fromBalance := some 0, toBalance := some qt,
            change := some qt, changeType := "NEW_ACCOUNT" } := by
        unfold newEntry
        rw [hta_name, hffind, htb]
        have hg : jgtB (jabs (some qt)) (some 1000) = true := by
          simp [jabs, jgtB, hq]
        rw [if_pos hg]
      exact ⟨_, (mem_accountChanges_iff fromD toD af _).2
        (List.mem_append.2 (Or.inr (List.mem_filterMap.2 ⟨ta, hta_mem, hNE⟩))), rfl⟩
  · -- (c) disappeared accounts never appear
    intro nm hnone e he hname
    rcases List.mem_append.1 ((mem_accountChanges_iff fromD toD af e).1 he) with hm | hm
    · obtain ⟨fa2, hfa2, hme⟩ := List.mem_filterMap.1 hm
      obtain ⟨ta2, htfind2, hg2, hE⟩ := matchedEntry_some hme
      have hname2 : fa2.name = nm := by rw [hE] at hname; exact hname
      rw [hname2, hnone] at htfind2
      cases htfind2
    · obtain ⟨ta2, hta2, hne⟩ := List.mem_filterMap.1 hm
      obtain ⟨hn2, hg2, hE⟩ := newEntry_some hne
      have hname2 : ta2.name = nm := by rw [hE] at hname; exact hname
      have := List.find?_eq_none.1 hnone ta2 hta2
      simp [hname2] at this
  · -- every retained entry has a parsed change exceeding 1000
    intro e he
    rcases List.mem_append.1 ((mem_accountChanges_iff fromD toD af e).1 he) with hm | hm
    · obtain ⟨fa2, hfa2, hme⟩ := List.mem_filterMap.1 hm
      obtain ⟨ta2, htfind2, hguard, hE⟩ := matchedEntry_some hme
      obtain ⟨q, hq1, hq2⟩ := jgtB_abs_some hguard
      exact ⟨q, by rw [hE]; exact hq1, hq2⟩
    · obtain ⟨ta2, hta2, hne⟩ := List.mem_filterMap.1 hm
      obtain ⟨hn2, hguard, hE⟩ := newEntry_some hne
      obtain ⟨q, hq1, hq2⟩ := jgtB_abs_some hguard
      exact ⟨q, by rw [hE]; exact hq1, hq2⟩

/-- C6 witness: between the sample periods, `Cash` grew from 5000 to 7000
(change 2000 > 1000), so the INCREASE entry for it is in
`accountChanges`. -/
theorem c6_period_comparison_witness :
    ({ accountName := "Cash", fromBalance := some 5000, toBalance := some 7000,
       change := some 2000, changeType := "INCREASE" } : AccountChange) ∈
      (comparePeriods exFromTB exToTB none).accountChanges := by
  have h := (c6_period_comparison exFromTB exToTB none
      (by decide) (by decide)).1
    "Cash" (exRec "Cash" 5000 "Bank") (exRec "Cash" 7000 "Bank") 5000 7000
    (by decide) (by decide) rfl rfl
  have hq : (1000 : ℚ) < |(7000 : ℚ) - 5000| := by
    rw [show (7000 : ℚ) - 5000 = 2000 by norm_num,
      abs_of_pos (by norm_num : (0 : ℚ) < 2000)]
    norm_num
  obtain ⟨e, he, hname⟩ := h.1.mpr hq
  have he2 := h.2 e he hname
  rw [he2] at he
  have hEq : ({ accountName := "Cash", fromBalance := some 5000, toBalance := some 7000,
                change := some ((7000 : ℚ) - 5000),
                changeType := if 0 < (7000 : ℚ) - 5000 then "INCREASE" else "DECREASE" } :
        AccountChange) =
      ({ accountName := "Cash", fromBalance := some 5000, toBalance := some 7000,
         change := some 2000, changeType := "INCREASE" } : AccountChange) := by
    norm_num [AccountChange.mk.injEq]
  rw [hEq] at he
  exact he
